import Mathlib

/-!
Verification development for the boomerang arena-combat simulation core.

The definitions below are a shallow embedding of the TypeScript source:
`src/config/GameConfig.ts` (GameState / Stats singletons), the collision
system (`CollisionSystem`), the player movement system (`PlayerSystem`)
and the projectile system (`BoomerangSystem`).  JavaScript numbers are
modelled as rationals (`ℚ`) for continuous quantities and integers (`ℤ`)
for counters and timers; `Math.sqrt`, `Math.atan2`, `Math.cos`,
`Math.sin` and `Math.PI` are abstracted as parameters (`MathOps`), since
no verified claim depends on their numeric values.  Fields that only
feed rendering, audio, vibration or particle effects are omitted; every
state mutation of the simulation data is kept, in source order.
-/

/-- Mutate the first element satisfying `pred` (JS `Array.find` followed by an
in-place mutation of the found object). -/
def updateFirst (pred : α → Bool) (f : α → α) : List α → List α
  | [] => []
  | x :: xs => if pred x then f x :: xs else x :: updateFirst pred f xs

/-- Remove the first element satisfying `pred` (JS `findIndex` + `splice(idx, 1)`). -/
def removeFirst (pred : α → Bool) : List α → List α
  | [] => []
  | x :: xs => if pred x then xs else x :: removeFirst pred xs

/-- 2D vector, the `{x, y}` pairs used for transforms and velocities. -/
structure Vec2 where
  x : ℚ
  y : ℚ
deriving DecidableEq, Repr

/-- Abstracted transcendental operations of JS `Math`. -/
structure MathOps where
  sqrt : ℚ → ℚ
  atan2 : ℚ → ℚ → ℚ
  cos : ℚ → ℚ
  sin : ℚ → ℚ
  pi : ℚ

/-- One entry of `PlayerData.powerups`: `{ type, timer }`. -/
structure PowerupEntry where
  ptype : String
  timer : ℤ
deriving DecidableEq, Repr

/-- `PlayerData` from `entities/types.ts` (cosmetic indices kept, render-only
fields dropped). -/
structure PlayerData where
  playerId : ℤ
  alive : Bool
  hasBoomerang : Bool
  catchCooldown : ℤ
  animTime : ℤ
  dashing : Bool
  dashTimer : ℤ
  dashCooldown : ℤ
  charging : Bool
  chargeTime : ℤ
  powerups : List PowerupEntry
  shieldHits : ℤ
  isAI : Bool
  angle : ℚ
  skinIndex : ℤ
  teamIndex : ℤ
  gamepadIndex : ℤ
  frozen : Bool
  frozenTimer : ℤ
  burning : Bool
  burnTimer : ℤ
deriving DecidableEq, Repr

/-- `BoomerangData` from `entities/types.ts`. -/
structure BoomerangData where
  ownerId : ℤ
  returning : Bool
  returnTimer : ℤ
  maxReturnTime : ℤ
  lifetime : ℤ
  bounces : ℤ
  maxBounces : ℤ
  isBig : Bool
  rotation : ℚ
  trailTimer : ℤ
  hasFreeze : Bool
  hasFire : Bool
  canPenetrate : Bool
  extendedRange : Bool
deriving DecidableEq, Repr

/-- Circle collider component (`collider.radius` may be absent, defaulted at use sites). -/
structure ColliderCircle where
  radius : Option ℚ
deriving DecidableEq, Repr

/-- A player entity: `PlayerData` plus optional `transform` / `velocity` /
`collider` components (systems skip entities with missing components). -/
structure PlayerEnt where
  player : PlayerData
  transform : Option Vec2
  velocity : Option Vec2
  collider : Option ColliderCircle
deriving DecidableEq, Repr

/-- A boomerang entity with its optional components. -/
structure BoomEnt where
  boomerang : BoomerangData
  transform : Option Vec2
  velocity : Option Vec2
  collider : Option ColliderCircle
deriving DecidableEq, Repr

/-- Per-player configuration entry of `GameSettings.players`. -/
structure PlayerCfg where
  gamepadIndex : ℤ
  skinIndex : ℤ
  teamIndex : ℤ
deriving DecidableEq, Repr

/-- The slice of the `GameSettings` singleton the collision system reads. -/
structure GSettings where
  players : List PlayerCfg
deriving DecidableEq, Repr

/-- JS array indexing `players[i]` (out-of-range or negative index gives
`undefined`, i.e. `none`). -/
def getCfg (players : List PlayerCfg) (i : ℤ) : Option PlayerCfg :=
  if h : 0 ≤ i ∧ i.toNat < players.length then some (players.get ⟨i.toNat, h.2⟩) else none

/-- Match phases of `GameState.state`. -/
inductive GPhase where
  | title
  | ready
  | fight
  | ko
  | roundEnd
  | win
  | pause
  | tutorial
deriving DecidableEq, Repr

/-- Per-player score record of `GameState.playerScores`. -/
structure PlayerScore where
  playerId : ℤ
  score : ℤ
  kills : ℤ
  deaths : ℤ
  isAlive : Bool
deriving DecidableEq, Repr

/-- Player snapshot stored in a replay frame. -/
structure ReplayPlayerSnap where
  playerId : ℤ
  x : ℚ
  y : ℚ
  angle : ℚ
  alive : Bool
  hasBoomerang : Bool
  charging : Bool
  dashing : Bool
  skinIndex : ℤ
deriving DecidableEq, Repr

/-- Boomerang snapshot stored in a replay frame. -/
structure ReplayBoomSnap where
  ownerId : ℤ
  x : ℚ
  y : ℚ
  rotation : ℚ
  isBig : Bool
deriving DecidableEq, Repr

/-- Particle snapshot stored in a replay frame (visual effect state). -/
structure ReplayParticleSnap where
  x : ℚ
  y : ℚ
  vx : ℚ
  vy : ℚ
  size : ℚ
  life : ℤ
  maxLife : ℤ
deriving DecidableEq, Repr

/-- Ring snapshot stored in a replay frame (visual effect state). -/
structure ReplayRingSnap where
  x : ℚ
  y : ℚ
  radius : ℚ
  maxRadius : ℚ
  alpha : ℚ
deriving DecidableEq, Repr

/-- One frame of the replay ring buffer. -/
structure ReplayFrame where
  time : ℤ
  players : List ReplayPlayerSnap
  boomerangs : List ReplayBoomSnap
  particles : List ReplayParticleSnap
  rings : List ReplayRingSnap
deriving DecidableEq, Repr

/-- The `GameState` singleton (menu-navigation and screen-shake fields, which
only drive UI, are omitted).  The legacy two-entry `scores` array is modelled
as a map from index to value, matching JS array-as-object semantics. -/
structure GState where
  state : GPhase
  playerScores : List PlayerScore
  scores : ℤ → ℤ
  roundWinner : ℤ
  roundWinnerTeam : ℤ
  roundNumber : ℤ
  alivePlayers : List ℤ
  roundEndAnimTime : ℤ
  previousScores : List ℤ
  replayBuffer : List ReplayFrame
  replayMaxFrames : ℤ
  replayPlaybackIndex : ℤ
  replayPlaying : Bool
  replaySpeed : ℚ
  replayFrameAccum : ℚ
  winnerConfirmed : Bool
  stateTimer : ℤ
  time : ℤ
  hitstop : ℤ
  slowmo : ℚ
  powerupSpawnTimer : ℤ
  zoom : ℚ
  zoomTarget : ℚ

namespace GState

/-- `GameState.initPlayerScores`. -/
def initPlayerScores (g : GState) (playerCount : ℕ) : GState :=
  let ps := (List.range playerCount).map fun i =>
    ({ playerId := (i : ℤ), score := 0, kills := 0, deaths := 0, isAlive := true } : PlayerScore)
  { g with playerScores := ps, alivePlayers := ps.map (·.playerId), roundNumber := 1 }

/-- `GameState.playerDied`: mark the victim record dead, bump its deaths,
credit the killer's kills unless the kill was a self-kill, refresh the
alive-id list. -/
def playerDied (g : GState) (playerId killerId : ℤ) : GState :=
  let ps := updateFirst (fun p => p.playerId = playerId)
    (fun p => { p with isAlive := false, deaths := p.deaths + 1 }) g.playerScores
  let ps := if killerId ≠ playerId then
      updateFirst (fun p => p.playerId = killerId) (fun p => { p with kills := p.kills + 1 }) ps
    else ps
  { g with playerScores := ps, alivePlayers := (ps.filter (·.isAlive)).map (·.playerId) }

/-- `GameState.endRound`: snapshot pre-increment scores, bump the winner's
score, record the round winner, and update the legacy two-entry array. -/
def endRound (g : GState) (winnerId : ℤ) : GState :=
  let g := { g with previousScores := g.playerScores.map (fun (p : PlayerScore) => p.score), roundEndAnimTime := 0 }
  let g := { g with
    playerScores := updateFirst (fun p => p.playerId = winnerId)
      (fun p => { p with score := p.score + 1 }) g.playerScores,
    roundWinner := winnerId }
  if winnerId < 2 then
    { g with scores := fun i => if i = winnerId then g.scores i + 1 else g.scores i }
  else g

/-- `GameState.resetRound`. -/
def resetRound (g : GState) : GState :=
  let ps := g.playerScores.map (fun p => { p with isAlive := true })
  { g with
    roundWinner := -1, roundWinnerTeam := -1, zoom := 1, zoomTarget := 1, slowmo := 1,
    playerScores := ps,
    alivePlayers := ps.map (fun p => p.playerId),
    roundNumber := g.roundNumber + 1,
    replayBuffer := [], replayPlaybackIndex := 0, replayPlaying := false,
    replayFrameAccum := 0, winnerConfirmed := false }

/-- `GameState.recordReplayFrame`: push, then evict the oldest entry once the
buffer exceeds its capacity. -/
def recordReplayFrame (g : GState) (frame : ReplayFrame) : GState :=
  let buf := g.replayBuffer ++ [frame]
  let buf := if (buf.length : ℤ) > g.replayMaxFrames then buf.drop 1 else buf
  { g with replayBuffer := buf }

/-- `GameState.startReplay`: start playback at
`max(0, length - min(180, floor(length * 0.6)))` and clear the accumulator. -/
def startReplay (g : GState) : GState :=
  let startOffset : ℤ := min 180 (Int.floor ((g.replayBuffer.length : ℚ) * 0.6))
  { g with
    replayPlaying := true,
    replayPlaybackIndex := max 0 ((g.replayBuffer.length : ℤ) - startOffset),
    replayFrameAccum := 0 }

/-- `GameState.getReplayFrame` (a negative or out-of-range index yields `none`). -/
def getReplayFrame (g : GState) : Option ReplayFrame :=
  if ¬g.replayPlaying ∨ g.replayBuffer.length = 0 then none
  else if 0 ≤ g.replayPlaybackIndex then g.replayBuffer.get? g.replayPlaybackIndex.toNat
  else none

/-- `GameState.advanceReplay`: add the playback speed to the fractional
accumulator; on reaching 1 consume it, step the index, and wrap to 0 at the
end of the buffer.  Returns the state plus the JS return value. -/
def advanceReplay (g : GState) : GState × Bool :=
  if ¬g.replayPlaying then (g, false)
  else
    let acc := g.replayFrameAccum + g.replaySpeed
    if acc ≥ 1 then
      let idx := g.replayPlaybackIndex + 1
      let idx := if idx ≥ (g.replayBuffer.length : ℤ) then 0 else idx
      ({ g with replayFrameAccum := acc - 1, replayPlaybackIndex := idx }, true)
    else
      ({ g with replayFrameAccum := acc }, true)

/-- `GameState.checkGameWinner`. -/
def checkGameWinner (g : GState) (winScore : ℤ) : ℤ :=
  match g.playerScores.find? (fun p => p.score ≥ winScore) with
  | some p => p.playerId
  | none => -1

end GState

/-- One side of `Stats.current` (per-player aggregate counters). -/
structure StatEntry where
  kills : ℤ
  deaths : ℤ
  throws : ℤ
  dashes : ℤ
  powerups : ℤ
deriving DecidableEq, Repr

/-- The `Stats` singleton slice touched by kill recording (persisted totals
other than `totalKills` are omitted). -/
structure Stats where
  p1 : StatEntry
  p2 : StatEntry
  totalKills : ℤ
deriving DecidableEq, Repr

namespace Stats

/-- `Stats.recordKill`: bucket the killer and the victim into `p1`/`p2` by
comparing the id with 0, then bump the killer's kills and the victim's
deaths.  Note that any id other than 0 — including the `-1` passed for a
self-kill — selects `p2`. -/
def recordKill (s : Stats) (killerId victimId : ℤ) : Stats :=
  let s := if killerId = 0 then { s with p1 := { s.p1 with kills := s.p1.kills + 1 } }
           else { s with p2 := { s.p2 with kills := s.p2.kills + 1 } }
  let s := if victimId = 0 then { s with p1 := { s.p1 with deaths := s.p1.deaths + 1 } }
           else { s with p2 := { s.p2 with deaths := s.p2.deaths + 1 } }
  { s with totalKills := s.totalKills + 1 }

end Stats

/-! ### Configuration constants (`config/GameConfig.ts`) -/

namespace PLAYER_CONFIG

def radius : ℚ := 28
def moveSpeed : ℚ := 1.2
def maxSpeed : ℚ := 12
def friction : ℚ := 0.85
def dashSpeed : ℚ := 45
def dashDuration : ℤ := 6
def dashCooldown : ℤ := 12
def catchCooldown : ℤ := 15
def maxCharge : ℤ := 30
def chargeSpeedMultiplier : ℚ := 0.5

end PLAYER_CONFIG

namespace BOOMERANG_CONFIG

def radius : ℚ := 18
def bigRadius : ℚ := 30
def baseSpeed : ℚ := 18
def maxSpeedBonus : ℚ := 10
def returnSpeed : ℚ := 18
def maxReturnTime : ℤ := 40
def bigMaxReturnTime : ℤ := 55
def maxBounces : ℤ := 5
def bigMaxBounces : ℤ := 7
def maxLifetime : ℤ := 300
def slowdownRate : ℚ := 0.985
def turnRate : ℚ := 0.15

end BOOMERANG_CONFIG

namespace POWERUP_CONFIG

def duration : ℤ := 600
def freezeDuration : ℤ := 120
def burnDuration : ℤ := 180
def burnDamageInterval : ℤ := 60

end POWERUP_CONFIG

/-- Typed events emitted to the renderer/audio bus (only the ones the claims
mention are modelled). -/
inductive GameEvent where
  | playerDeath (victimId killerId : ℤ) (x y : ℚ)
  | playerCatch (playerId : ℤ)
  | playerFreeze (victimId freezerId : ℤ)
  | boomerangBounce (x y : ℚ)
deriving DecidableEq, Repr

/-! ### Collision system (`CollisionSystem`, `src/unnamed/part_001`) -/

/-- `CollisionSystem.hasPowerup`: `player.powerups.some(p => p.type === type)`. -/
def hasPowerup (p : PlayerData) (t : String) : Bool :=
  p.powerups.any (fun e => e.ptype = t)

/-- `CollisionSystem.catchBoomerang` (state effect: the possession flag;
particles / vibration / events are render-side). -/
def catchBoomerang (p : PlayerData) : PlayerData :=
  { p with hasBoomerang := true }

/-- `CollisionSystem.shieldBlock`: decrement the shield charge counter,
drop the shield powerup entry once exhausted, reverse the projectile's
velocity (scaled by 1.2) and reset its returning state. -/
def shieldBlock (p : PlayerData) (b : BoomEnt) : PlayerData × BoomEnt :=
  let p := { p with shieldHits := p.shieldHits - 1 }
  let p := if p.shieldHits ≤ 0 then
      { p with powerups := removeFirst (fun e => e.ptype = "shield") p.powerups }
    else p
  let b := { b with
    velocity := b.velocity.map (fun v => ⟨v.x * (-1.2), v.y * (-1.2)⟩),
    boomerang := { b.boomerang with returning := false, returnTimer := 0 } }
  (p, b)

/-- `CollisionSystem.freezePlayer` (state effects: frozen flag, frozen timer,
velocity zeroed). -/
def freezePlayer (e : PlayerEnt) : PlayerEnt :=
  { e with
    player := { e.player with frozen := true, frozenTimer := POWERUP_CONFIG.freezeDuration },
    velocity := e.velocity.map (fun _ => ⟨0, 0⟩) }

/-- `CollisionSystem.collectPowerup` (state effects on the player: push the
timed status entry, and for a shield set the charge counter to 3). -/
def collectPowerup (ptype : String) (p : PlayerData) : PlayerData :=
  let p := { p with powerups := p.powerups ++ [⟨ptype, 600⟩] }
  if ptype = "shield" then { p with shieldHits := 3 } else p

/-- The action chosen for one overlapping boomerang/player pair inside
`CollisionSystem.handleBoomerangPlayerCollisions` (lines 256-276):
catch when it is the owner's own returning projectile and the catch
cooldown has elapsed, otherwise a hit (shield / freeze / kill) unless the
projectile is still fresh from its own owner. -/
inductive OverlapAction where
  | caught
  | shielded
  | freezeHit
  | killed
deriving DecidableEq, Repr

/-- Decision logic of the overlap branch (the caller has already established
the circle overlap and that the player is alive). -/
def overlapAction (b : BoomerangData) (p : PlayerData) : Option OverlapAction :=
  if b.ownerId = p.playerId ∧ b.returning ∧ p.catchCooldown ≤ 0 then
    some .caught
  else if b.ownerId ≠ p.playerId ∨ b.lifetime > 20 then
    if hasPowerup p "shield" ∧ p.shieldHits > 0 then some .shielded
    else if b.hasFreeze ∧ ¬p.frozen then some .freezeHit
    else some .killed
  else
    none

/-- Result of applying the chosen overlap action: the updated player entity,
the surviving boomerang entity (`none` when the projectile was despawned
by a catch), and whether the kill pipeline was entered. -/
structure OverlapResult where
  player : PlayerEnt
  boomerang : Option BoomEnt
  victimKilled : Bool
deriving DecidableEq, Repr

/-- Apply the overlap branch to one boomerang/player pair.  The `killed`
case records the immediate effect of `killPlayer` on the victim entity
(`alive := false`); the scoring/round-end part of the kill pipeline is the
separate `killPlayer` model below. -/
def applyOverlap (b : BoomEnt) (e : PlayerEnt) : OverlapResult :=
  match overlapAction b.boomerang e.player with
  | some .caught => ⟨{ e with player := catchBoomerang e.player }, none, false⟩
  | some .shielded =>
      let r := shieldBlock e.player b
      ⟨{ e with player := r.1 }, some r.2, false⟩
  | some .freezeHit => ⟨freezePlayer e, some b, false⟩
  | some .killed => ⟨{ e with player := { e.player with alive := false } }, some b, true⟩
  | none => ⟨e, some b, false⟩

/-- Fold a sequence of overlap resolutions over one player (each element of
`bs` is a projectile overlapping the player on some tick). -/
def applyHits (bs : List BoomEnt) (e : PlayerEnt) : PlayerEnt :=
  bs.foldl (fun e b => (applyOverlap b e).player) e

/-- `CollisionSystem.triggerRoundEnd` — immediate effects: credit the winner
when one exists, enter the `ko` freeze-frame with a 2-second timer and
slow-motion, and zoom onto the winner when its entity has a transform. -/
def GState.triggerRoundEnd (g : GState) (winnerId : ℤ) (winnerHasTransform : Bool) : GState :=
  let g := if winnerId ≥ 0 then g.endRound winnerId else g
  let g := { g with state := GPhase.ko, stateTimer := 120, slowmo := 0.1 }
  if winnerHasTransform then { g with zoomTarget := 1.3 } else g

/-- `CollisionSystem.triggerRoundEnd` — deferred effects: the `setTimeout`
chain gradually restores slow-motion (0.3 at 500ms, 0.5 at 1000ms) and at
1500ms restores time/zoom and switches to the `roundEnd` score display. -/
def GState.triggerRoundEndDeferred (g : GState) : GState :=
  let g := { g with slowmo := 0.3 }
  let g := { g with slowmo := 0.5 }
  { g with slowmo := 1, zoomTarget := 1, state := GPhase.roundEnd, stateTimer := 180 }

/-- The alive-player list computed at the top of `CollisionSystem.checkRoundEnd`. -/
def aliveEntities (world : List PlayerEnt) : List PlayerEnt :=
  world.filter (fun e => e.player.alive)

/-- Folding step collecting `aliveTeams` (insertion-ordered, deduplicated,
like a JS `Set`) and the `soloAlive` count in team mode. -/
def factionStep (players : List PlayerCfg) (acc : List ℤ × ℤ) (p : PlayerEnt) : List ℤ × ℤ :=
  match getCfg players p.player.playerId with
  | some c =>
      if c.teamIndex ≥ 0 then
        (if acc.1.contains c.teamIndex then acc.1 else acc.1 ++ [c.teamIndex], acc.2)
      else (acc.1, acc.2 + 1)
  | none => (acc.1, acc.2 + 1)

/-- `CollisionSystem.checkRoundEnd`: count currently-alive players; with at
most one left declare that player the winner (or a draw when none is left);
otherwise, in team mode, end the round when a single faction (team or
unaffiliated solo) remains. -/
def checkRoundEnd (world : List PlayerEnt) (settings : GSettings) (g : GState) : GState :=
  let alivePlayers := aliveEntities world
  if alivePlayers.length ≤ 1 then
    match alivePlayers.head? with
    | some w => g.triggerRoundEnd w.player.playerId w.transform.isSome
    | none => g.triggerRoundEnd (-1) false
  else
    let players := settings.players
    let teamMode := players.any (fun p => p.teamIndex ≥ 0)
    if teamMode then
      let fs := alivePlayers.foldl (factionStep players) ([], 0)
      let totalFactions := (fs.1.length : ℤ) + fs.2
      if totalFactions ≤ 1 then
        if fs.1.length = 1 then
          let winningTeam := fs.1.headD 0
          match alivePlayers.find? (fun p =>
              match getCfg players p.player.playerId with
              | some c => c.teamIndex = winningTeam
              | none => false) with
          | some tm =>
              ({ g with roundWinnerTeam := winningTeam }).triggerRoundEnd
                tm.player.playerId tm.transform.isSome
          | none => g
        else if fs.2 = 1 then
          match alivePlayers.find? (fun p =>
              match getCfg players p.player.playerId with
              | some c => decide (c.teamIndex < 0)
              | none => true) with
          | some w => g.triggerRoundEnd w.player.playerId w.transform.isSome
          | none => g
        else g
      else g
    else g

/-- Result record of the kill pipeline. -/
structure KillResult where
  world : List PlayerEnt
  gstate : GState
  stats : Stats
  events : List GameEvent

/-- `CollisionSystem.killPlayer`: mark the victim entity dead, record the kill
in `Stats` (a self-kill is reported as killer `-1`), update the score system
via `GameState.playerDied`, set the brief kill slow-motion, emit the death
notification (with killer `-1` for a self-kill), and evaluate round end.
The victim is addressed by its index in the entity list (the source holds an
object reference); an out-of-range index leaves everything unchanged. -/
def killPlayer (world : List PlayerEnt) (victimIdx : ℕ) (killerId : ℤ)
    (settings : GSettings) (g : GState) (stats : Stats) : KillResult :=
  match world.get? victimIdx with
  | none => ⟨world, g, stats, []⟩
  | some victim =>
    let vdata := victim.player
    let victim' := { victim with player := { vdata with alive := false } }
    let world' := world.set victimIdx victim'
    let isSelfKill := killerId = vdata.playerId
    let actualKillerId := if isSelfKill then -1 else killerId
    let stats' := stats.recordKill (if isSelfKill then -1 else killerId) vdata.playerId
    let g := g.playerDied vdata.playerId killerId
    let g := { g with slowmo := 0.3 }
    let ev := GameEvent.playerDeath vdata.playerId actualKillerId
      ((victim.transform.map Vec2.x).getD 0) ((victim.transform.map Vec2.y).getD 0)
    let g := checkRoundEnd world' settings g
    ⟨world', g, stats', [ev]⟩

/-- Collision record returned by the external `Matter.js` narrow-phase query
(`physics.checkCircleShapeCollision`): a unit surface normal and a
penetration depth. -/
structure CollisionInfo where
  nx : ℚ
  ny : ℚ
  depth : ℚ
deriving DecidableEq, Repr

/-- The body of `CollisionSystem.handleBoomerangWallCollisions` for one wall
contact: push the projectile out along the normal, reflect the velocity about
the normal, increment the bounce counter, and force the Returning state once
the bounce cap is reached. -/
def applyWallCollision (ci : CollisionInfo) (t v : Vec2) (b : BoomerangData) :
    Vec2 × Vec2 × BoomerangData :=
  let t := ⟨t.x + ci.nx * ci.depth, t.y + ci.ny * ci.depth⟩
  let dot := v.x * ci.nx + v.y * ci.ny
  let v : Vec2 := ⟨v.x - 2 * dot * ci.nx, v.y - 2 * dot * ci.ny⟩
  let b := { b with bounces := b.bounces + 1 }
  let b := if b.bounces ≥ b.maxBounces ∧ ¬b.returning then { b with returning := true } else b
  (t, v, b)

/-- `CollisionSystem.handlePlayerPlayerCollisions`, inner loop body for one
pair: circle-circle overlap check, positional separation, and — only for
approaching players — a restitution impulse split by speed ratio with dash
boosts and one-sided dash knockback.  Pairs with a dead member, or with a
missing transform / velocity / collider, are skipped. -/
def pairResolve (m : MathOps) (p1 p2 : PlayerEnt) : PlayerEnt × PlayerEnt :=
  if ¬p1.player.alive ∨ ¬p2.player.alive then (p1, p2) else
  match p1.transform, p2.transform, p1.velocity, p2.velocity, p1.collider, p2.collider with
  | some t1, some t2, some v1, some v2, some c1, some c2 =>
    let r1 := c1.radius.getD 28
    let r2 := c2.radius.getD 28
    let dx := t2.x - t1.x
    let dy := t2.y - t1.y
    let dist := m.sqrt (dx * dx + dy * dy)
    let minDist := r1 + r2
    if dist < minDist ∧ dist > 0 then
      let nx := dx / dist
      let ny := dy / dist
      let overlap := minDist - dist
      let separateX := nx * overlap * 0.5
      let separateY := ny * overlap * 0.5
      let t1 : Vec2 := ⟨t1.x - separateX, t1.y - separateY⟩
      let t2 : Vec2 := ⟨t2.x + separateX, t2.y + separateY⟩
      let dvx := v1.x - v2.x
      let dvy := v1.y - v2.y
      let dvn := dvx * nx + dvy * ny
      if dvn > 0 then
        let restitution : ℚ := 0.8
        let impulse := dvn * restitution
        let speed1 := m.sqrt (v1.x * v1.x + v1.y * v1.y)
        let speed2 := m.sqrt (v2.x * v2.x + v2.y * v2.y)
        let totalSpeed := speed1 + speed2
        let dashBoost1 : ℚ := if p1.player.dashing then 1.5 else 1
        let dashBoost2 : ℚ := if p2.player.dashing then 1.5 else 1
        let ratio1 := if totalSpeed > 0 then speed2 / totalSpeed else 0.5
        let ratio2 := if totalSpeed > 0 then speed1 / totalSpeed else 0.5
        let v1 : Vec2 := ⟨v1.x - nx * impulse * ratio1 * dashBoost2,
                          v1.y - ny * impulse * ratio1 * dashBoost2⟩
        let v2 : Vec2 := ⟨v2.x + nx * impulse * ratio2 * dashBoost1,
                          v2.y + ny * impulse * ratio2 * dashBoost1⟩
        let knock : Vec2 × Vec2 :=
          if p1.player.dashing ∧ ¬p2.player.dashing then
            (v1, ⟨v2.x + nx * 8, v2.y + ny * 8⟩)
          else if p2.player.dashing ∧ ¬p1.player.dashing then
            (⟨v1.x - nx * 8, v1.y - ny * 8⟩, v2)
          else (v1, v2)
        ({ p1 with transform := some t1, velocity := some knock.1 },
         { p2 with transform := some t2, velocity := some knock.2 })
      else
        ({ p1 with transform := some t1 }, { p2 with transform := some t2 })
    else (p1, p2)
  | _, _, _, _, _, _ => (p1, p2)

/-! ### Player system (`PlayerSystem.ts`) -/

/-- Per-tick environment read by `PlayerSystem.updatePlayer`: whether the
player stands on ice (`TerrainSystem.isPlayerOnIce`), the global slow-motion
scale, and the arena dimensions (`engine.width` / `engine.height`). -/
structure PlayerEnv where
  onIce : Bool
  slowmo : ℚ
  width : ℚ
  height : ℚ
deriving DecidableEq, Repr

/-- One player's per-tick input sample (from the input system or the AI
controller — `updatePlayer` treats both uniformly). -/
structure PInput where
  x : ℚ
  y : ℚ
  actionHeld : Bool
  actionReleased : Bool
  dash : Bool
deriving DecidableEq, Repr

/-- Closed form of the two `while` loops that normalise an angle difference
into `(-pi, pi]` using `Math.PI` (guarded so a non-positive `pi` is the
identity; the convention at exact odd multiples of `pi` is immaterial to the
claims, which do not constrain angles). -/
def wrapAngle (pi d : ℚ) : ℚ :=
  if 0 < pi then d - 2 * pi * (Int.floor ((d + pi) / (2 * pi)) : ℚ) else d

/-- `PlayerSystem.startDash` (state effects: dash flags/timers, velocity and
facing; the dash statistics counter and the visual burst are external). -/
def startDash (m : MathOps) (inp : PInput) (p : PlayerData) (_t v : Vec2) :
    PlayerData × Vec2 :=
  let p := { p with
    dashing := true, dashTimer := PLAYER_CONFIG.dashDuration,
    dashCooldown := PLAYER_CONFIG.dashCooldown }
  let d : ℚ × ℚ :=
    if inp.x = 0 ∧ inp.y = 0 then (m.cos p.angle, m.sin p.angle) else (inp.x, inp.y)
  let l := m.sqrt (d.1 * d.1 + d.2 * d.2)
  let len := if l = 0 then 1 else l
  let _ := v
  ({ p with angle := m.atan2 d.2 d.1 },
   ⟨d.1 / len * PLAYER_CONFIG.dashSpeed, d.2 / len * PLAYER_CONFIG.dashSpeed⟩)

/-- `PlayerSystem.throwBoomerang` (state effects on the thrower: drop the
possession flag and start the catch cooldown; the spawned projectile entities
and the throw statistics counter live outside the player record). -/
def throwBoomerangState (p : PlayerData) : PlayerData :=
  if ¬p.hasBoomerang then p
  else { p with hasBoomerang := false, catchCooldown := PLAYER_CONFIG.catchCooldown }

/-- The speed-dependent boundary bounce coefficient of
`PlayerSystem.updatePlayer`: `min(bounceBase + |v| * bounceScale / maxSpeed,
maxBounce)` with base 0.3, scale 0.4 and cap 0.8. -/
def bounceForce (vcomp : ℚ) : ℚ :=
  min (0.3 + |vcomp| * 0.4 / PLAYER_CONFIG.maxSpeed) 0.8

/-- First boundary block of `PlayerSystem.updatePlayer`
(`transform.x < margin`): clamp to the left margin and redirect the
x-velocity inward. -/
def pbXLow (s : Vec2 × Vec2) : Vec2 × Vec2 :=
  if s.1.x < 60 then (⟨60, s.1.y⟩, ⟨|s.2.x| * bounceForce s.2.x, s.2.y⟩) else s

/-- Second boundary block (`transform.x > W - margin`). -/
def pbXHigh (W : ℚ) (s : Vec2 × Vec2) : Vec2 × Vec2 :=
  if s.1.x > W - 60 then (⟨W - 60, s.1.y⟩, ⟨-(|s.2.x| * bounceForce s.2.x), s.2.y⟩) else s

/-- Third boundary block (`transform.y < margin`). -/
def pbYLow (s : Vec2 × Vec2) : Vec2 × Vec2 :=
  if s.1.y < 60 then (⟨s.1.x, 60⟩, ⟨s.2.x, |s.2.y| * bounceForce s.2.y⟩) else s

/-- Fourth boundary block (`transform.y > H - margin`). -/
def pbYHigh (H : ℚ) (s : Vec2 × Vec2) : Vec2 × Vec2 :=
  if s.1.y > H - 60 then (⟨s.1.x, H - 60⟩, ⟨s.2.x, -(|s.2.y| * bounceForce s.2.y)⟩) else s

/-- Arena-boundary resolution at the end of `PlayerSystem.updatePlayer`
(lines 230-287): the four sequential margin checks — clamp each coordinate to
the 60-unit margin and redirect the corresponding velocity component inward,
scaled by the speed-dependent bounce coefficient `bounceForce`. -/
def resolvePlayerBoundary (W H : ℚ) (t v : Vec2) : Vec2 × Vec2 :=
  pbYHigh H (pbYLow (pbXHigh W (pbXLow (t, v))))

/-- The middle section of `PlayerSystem.updatePlayer`, run for a living,
not-still-frozen player: unfreeze/burn countdown, dash start and tick,
movement acceleration, charge-aim, throw-on-release, friction, speed clamp
and position integration.  Returns the updated `PlayerData` together with
the integrated (pre-boundary) position and the velocity. -/
def updatePlayerCore (m : MathOps) (env : PlayerEnv) (inp : PInput)
    (p0 : PlayerData) (t0 v0 : Vec2) : PlayerData × Vec2 × Vec2 :=
    let p := p0
    let p : PlayerData := if p.frozen then { p with frozen := false, frozenTimer := p.frozenTimer - 1 } else p
    let p : PlayerData := if p.burning then
        (let p := { p with burnTimer := p.burnTimer - 1 }
         if p.burnTimer ≤ 0 then { p with burning := false } else p)
      else p
    let dashStart := inp.dash ∧ p.dashCooldown ≤ 0 ∧ ¬p.dashing ∧ ¬p.charging
    let s : PlayerData × Vec2 := if dashStart then startDash m inp p t0 v0 else (p, v0)
    let p := s.1
    let v := s.2
    let s : PlayerData × Vec2 := if p.dashing then
        (let p := { p with dashTimer := p.dashTimer - 1 }
         if p.dashTimer ≤ 0 then ({ p with dashing := false }, ⟨v.x * 0.1, v.y * 0.1⟩)
         else (p, v))
      else (p, v)
    let p := s.1
    let v := s.2
    let speedBoost : ℚ := if hasPowerup p "speed" then 1.6 else 1
    let moveSpeed : ℚ := if p.dashing then 0
      else if p.charging then PLAYER_CONFIG.chargeSpeedMultiplier
      else PLAYER_CONFIG.moveSpeed * speedBoost
    let s : PlayerData × Vec2 := if (inp.x ≠ 0 ∨ inp.y ≠ 0) ∧ ¬p.dashing then
        (let v : Vec2 := ⟨v.x + inp.x * moveSpeed, v.y + inp.y * moveSpeed⟩
         if ¬p.charging then ({ p with angle := m.atan2 inp.y inp.x }, v) else (p, v))
      else (p, v)
    let p := s.1
    let v := s.2
    let p : PlayerData := if p.hasBoomerang ∧ ¬p.dashing then
        (let p := if inp.actionHeld then
            (let p := if ¬p.charging then { p with charging := true, chargeTime := 0 } else p
             let p := { p with chargeTime := p.chargeTime + 1 }
             if inp.x ≠ 0 ∨ inp.y ≠ 0 then
               let targetAngle := m.atan2 inp.y inp.x
               let diff := wrapAngle m.pi (targetAngle - p.angle)
               let stickMag := m.sqrt (inp.x * inp.x + inp.y * inp.y)
               let chargeRatio := min ((p.chargeTime : ℚ) / (PLAYER_CONFIG.maxCharge : ℚ)) 1
               let chargeSlowdown := 1 - chargeRatio * 0.7
               let turnSpeed := (0.08 + stickMag * 0.12) * chargeSlowdown
               { p with angle := p.angle + diff * turnSpeed }
             else p)
          else p
         if inp.actionReleased ∧ p.charging then
           { (throwBoomerangState p) with charging := false, chargeTime := 0 }
         else p)
      else { p with charging := false, chargeTime := 0 }
    let friction : ℚ := if p.dashing then 0.98 else if env.onIce then 0.98 else 0.85
    let v : Vec2 := ⟨v.x * friction, v.y * friction⟩
    let spd := m.sqrt (v.x * v.x + v.y * v.y)
    let v : Vec2 := if spd > PLAYER_CONFIG.maxSpeed then
        ⟨v.x / spd * PLAYER_CONFIG.maxSpeed, v.y / spd * PLAYER_CONFIG.maxSpeed⟩
      else v
    let t : Vec2 := ⟨t0.x + v.x * env.slowmo, t0.y + v.y * env.slowmo⟩
    (p, t, v)

/-- `PlayerSystem.updatePlayer`: the full per-tick update of one player
entity — timers, powerup expiry, freeze/burn countdown, dash, movement
acceleration, charge-aim, throw, friction, speed clamp, position integration
and boundary resolution.  Dead players and players with a missing transform
or velocity are returned unchanged (the early `return`); a player whose
freeze timer has not yet elapsed only has its timer decremented and its
velocity damped.  Particle, trail, vibration and event emissions are
render-side and omitted. -/
def updatePlayer (m : MathOps) (env : PlayerEnv) (inp : PInput) (e : PlayerEnt) : PlayerEnt :=
  match e.transform, e.velocity with
  | some t0, some v0 =>
    if ¬e.player.alive then e else
    let p : PlayerData := { e.player with animTime := e.player.animTime + 1 }
    let p : PlayerData :=
      { p with catchCooldown := if p.catchCooldown > 0 then p.catchCooldown - 1 else p.catchCooldown }
    let p : PlayerData :=
      { p with dashCooldown := if p.dashCooldown > 0 then p.dashCooldown - 1 else p.dashCooldown }
    let p : PlayerData := { p with powerups :=
      (p.powerups.map (fun u => { u with timer := u.timer - 1 })).filter (fun u => u.timer > 0) }
    if p.frozen ∧ p.frozenTimer - 1 > 0 then
      -- still frozen: decrement the freeze timer, damp the velocity, skip the rest
      { e with
        player := { p with frozenTimer := p.frozenTimer - 1 },
        velocity := some ⟨v0.x * 0.9, v0.y * 0.9⟩ }
    else
      let c := updatePlayerCore m env inp p t0 v0
      let r := resolvePlayerBoundary env.width env.height c.2.1 c.2.2
      { e with player := c.1, transform := some r.1, velocity := some r.2 }
  | _, _ => e

/-! ### Boomerang system (`BoomerangSystem.ts`) -/

/-- `BoomerangSystem.bounce` on the data component: increment the bounce
counter and force the Returning state once the cap is reached (the particle
burst and bounce event are render-side). -/
def bounceData (b : BoomerangData) : BoomerangData :=
  let b := { b with bounces := b.bounces + 1 }
  if b.bounces ≥ b.maxBounces ∧ ¬b.returning then { b with returning := true } else b

/-- First boundary block of `BoomerangSystem.updateBoomerang`
(`transform.x < margin`): clamp, redirect the x-velocity inward, bounce. -/
def bbXLow (s : Vec2 × Vec2 × BoomerangData) : Vec2 × Vec2 × BoomerangData :=
  if s.1.x < 60 then (⟨60, s.1.y⟩, ⟨|s.2.1.x|, s.2.1.y⟩, bounceData s.2.2) else s

/-- Second boundary block (`transform.x > W - margin`). -/
def bbXHigh (W : ℚ) (s : Vec2 × Vec2 × BoomerangData) : Vec2 × Vec2 × BoomerangData :=
  if s.1.x > W - 60 then (⟨W - 60, s.1.y⟩, ⟨-|s.2.1.x|, s.2.1.y⟩, bounceData s.2.2) else s

/-- Third boundary block (`transform.y < margin`). -/
def bbYLow (s : Vec2 × Vec2 × BoomerangData) : Vec2 × Vec2 × BoomerangData :=
  if s.1.y < 60 then (⟨s.1.x, 60⟩, ⟨s.2.1.x, |s.2.1.y|⟩, bounceData s.2.2) else s

/-- Fourth boundary block (`transform.y > H - margin`). -/
def bbYHigh (H : ℚ) (s : Vec2 × Vec2 × BoomerangData) : Vec2 × Vec2 × BoomerangData :=
  if s.1.y > H - 60 then (⟨s.1.x, H - 60⟩, ⟨s.2.1.x, -|s.2.1.y|⟩, bounceData s.2.2) else s

/-- Arena-boundary resolution in `BoomerangSystem.updateBoomerang`
(lines 96-104): the four sequential margin checks — clamp to the 60-unit
margin, redirect the velocity component inward, and register a bounce for
each boundary contact. -/
def resolveBoomerangBoundary (W H : ℚ) (t v : Vec2) (b : BoomerangData) :
    Vec2 × Vec2 × BoomerangData :=
  bbYHigh H (bbYLow (bbXHigh W (bbXLow (t, v, b))))

/-- Flight section of `BoomerangSystem.updateBoomerang`: age the projectile,
decay the outbound velocity and transition to Returning below the speed floor
or past the time ceiling, steer a returning projectile toward its living
owner with the bounded turn-rate blend, and integrate the position under
slow-motion.  Returns the data with the pre-boundary position and velocity. -/
def updateBoomerangCore (m : MathOps) (slowmo : ℚ) (players : List PlayerEnt)
    (b0 : BoomerangData) (t0 v0 : Vec2) : BoomerangData × Vec2 × Vec2 :=
    let b := { b0 with
      lifetime := b0.lifetime + 1,
      rotation := b0.rotation + 0.4,
      trailTimer := b0.trailTimer + 1 }
    let s : BoomerangData × Vec2 :=
      if ¬b.returning then
        let v : Vec2 := ⟨v0.x * BOOMERANG_CONFIG.slowdownRate, v0.y * BOOMERANG_CONFIG.slowdownRate⟩
        let b := { b with returnTimer := b.returnTimer + 1 }
        let speed := m.sqrt (v.x * v.x + v.y * v.y)
        let b := if speed < 8 ∨ b.returnTimer > b.maxReturnTime then
            { b with returning := true }
          else b
        (b, v)
      else
        match players.find? (fun pl => pl.player.playerId = b.ownerId) with
        | some owner =>
          if owner.player.alive then
            match owner.transform with
            | some ot =>
              let dx := ot.x - t0.x
              let dy := ot.y - t0.y
              let dist := m.sqrt (dx * dx + dy * dy)
              if dist > 0 then
                let targetVx := dx / dist * BOOMERANG_CONFIG.returnSpeed
                let targetVy := dy / dist * BOOMERANG_CONFIG.returnSpeed
                (b, ⟨v0.x + (targetVx - v0.x) * BOOMERANG_CONFIG.turnRate,
                     v0.y + (targetVy - v0.y) * BOOMERANG_CONFIG.turnRate⟩)
              else (b, v0)
            | none => (b, v0)
          else (b, v0)
        | none => (b, v0)
    let t : Vec2 := ⟨t0.x + s.2.x * slowmo, t0.y + s.2.y * slowmo⟩
    (s.1, t, s.2)

/-- `BoomerangSystem.updateBoomerang`: the aging/flight part
(`updateBoomerangCore`) followed by arena-boundary resolution; a projectile
with a missing transform or velocity is skipped. -/
def updateBoomerang (m : MathOps) (slowmo W H : ℚ) (players : List PlayerEnt)
    (e : BoomEnt) : BoomEnt :=
  match e.transform, e.velocity with
  | some t0, some v0 =>
    let c := updateBoomerangCore m slowmo players e.boomerang t0 v0
    let r := resolveBoomerangBoundary W H c.2.1 c.2.2 c.1
    { e with transform := some r.1, velocity := some r.2.1, boomerang := r.2.2 }
  | _, _ => e

/-- `BoomerangSystem.cleanupBoomerangs`: despawn every projectile past the
absolute lifetime cap; when its owner exists, is alive and currently has no
boomerang, restore the owner's possession flag. -/
def cleanupBoomerangs : List BoomEnt → List PlayerEnt → List BoomEnt × List PlayerEnt
  | [], ps => ([], ps)
  | e :: rest, ps =>
    if e.boomerang.lifetime > BOOMERANG_CONFIG.maxLifetime then
      let ps :=
        match ps.find? (fun pl => pl.player.playerId = e.boomerang.ownerId) with
        | some o =>
          if o.player.alive ∧ ¬o.player.hasBoomerang then
            updateFirst (fun pl => pl.player.playerId = e.boomerang.ownerId)
              (fun pl => { pl with player := { pl.player with hasBoomerang := true } }) ps
          else ps
        | none => ps
      cleanupBoomerangs rest ps
    else
      let r := cleanupBoomerangs rest ps
      (e :: r.1, r.2)

/-! ### Helper lemmas and concrete fixtures -/

/-- Score of the first record with the given player id (`find` + `.score`). -/
def scoreOf (l : List PlayerScore) (pid : ℤ) : Option ℤ :=
  (l.find? (fun p => p.playerId = pid)).map (fun p => p.score)

theorem scoreOf_updateFirst_pres (f : PlayerScore → PlayerScore)
    (hid : ∀ p, (f p).playerId = p.playerId) (hsc : ∀ p, (f p).score = p.score) (q : ℤ) :
    ∀ (l : List PlayerScore) (pid : ℤ),
      scoreOf (updateFirst (fun p => p.playerId = q) f l) pid = scoreOf l pid := by
  intro l
  induction l with
  | nil => intro pid; rfl
  | cons x xs ih =>
    intro pid
    by_cases hx : x.playerId = q
    · simp [updateFirst, hx, scoreOf, List.find?_cons, hid, hsc]
      by_cases hq : q = pid <;> simp [hq, hsc]
    · simp only [updateFirst, scoreOf] at *
      simp only [hx, decide_eq_true_eq, if_false, if_neg]
      by_cases hp : x.playerId = pid <;> simp [List.find?_cons, hp, ih pid]

theorem scoreOf_updateFirst_self (f : PlayerScore → PlayerScore)
    (hid : ∀ p, (f p).playerId = p.playerId) (q : ℤ) :
    ∀ l : List PlayerScore,
      scoreOf (updateFirst (fun p => p.playerId = q) f l) q
        = (l.find? (fun p => p.playerId = q)).map (fun p => (f p).score) := by
  intro l
  induction l with
  | nil => rfl
  | cons x xs ih =>
    by_cases hx : x.playerId = q
    · simp [updateFirst, hx, scoreOf, List.find?_cons, hid]
    · simp only [updateFirst, scoreOf] at *
      simp [List.find?_cons, hx, ih]

theorem find?_updateFirst_self (pred : α → Bool) (f : α → α)
    (hpres : ∀ x, pred x = true → pred (f x) = true) :
    ∀ (l : List α) (x : α), l.find? pred = some x →
      (updateFirst pred f l).find? pred = some (f x) := by
  intro l
  induction l with
  | nil => intro x h; simp at h
  | cons y ys ih =>
    intro x h
    by_cases hy : pred y = true
    · simp [List.find?_cons, hy] at h
      subst h
      simp [updateFirst, hy, List.find?_cons, hpres y hy]
    · simp [List.find?_cons, hy] at h
      simp [updateFirst, hy, List.find?_cons, ih x h]

/-- Concrete fixture: a freshly spawned player record with the given id
(possession, alive, no timers, no powerups, no team). -/
def fxPlayerData (pid : ℤ) : PlayerData :=
  { playerId := pid, alive := true, hasBoomerang := true, catchCooldown := 0, animTime := 0,
    dashing := false, dashTimer := 0, dashCooldown := 0, charging := false, chargeTime := 0,
    powerups := [], shieldHits := 0, isAI := false, angle := 0, skinIndex := pid,
    teamIndex := -1, gamepadIndex := pid, frozen := false, frozenTimer := 0,
    burning := false, burnTimer := 0 }

/-- Concrete fixture: a player entity at (100, 100) with all components. -/
def fxPlayer (pid : ℤ) : PlayerEnt :=
  ⟨fxPlayerData pid, some ⟨100, 100⟩, some ⟨0, 0⟩, some ⟨some 28⟩⟩

/-- Concrete fixture: a plain (no-element, small, outbound) boomerang owned by
the given player, past the 20-tick freshness floor. -/
def fxBoom (owner : ℤ) : BoomEnt :=
  ⟨{ ownerId := owner, returning := false, returnTimer := 0, maxReturnTime := 40,
     lifetime := 30, bounces := 0, maxBounces := 5, isBig := false, rotation := 0,
     trailTimer := 0, hasFreeze := false, hasFire := false, canPenetrate := false,
     extendedRange := false }, some ⟨100, 100⟩, some ⟨5, 0⟩, some ⟨some 18⟩⟩

/-- Concrete fixture: an empty replay frame. -/
def fxFrame : ReplayFrame := ⟨0, [], [], [], []⟩

/-- Concrete fixture: a two-player fight-state `GameState` at the start of a
round (fresh scores, `roundWinner = -1`). -/
def fxG : GState :=
  { state := GPhase.fight, playerScores := [⟨0, 0, 0, 0, true⟩, ⟨1, 0, 0, 0, true⟩],
    scores := fun _ => 0, roundWinner := -1, roundWinnerTeam := -1, roundNumber := 1,
    alivePlayers := [0, 1], roundEndAnimTime := 0, previousScores := [],
    replayBuffer := [], replayMaxFrames := 480, replayPlaybackIndex := 0,
    replayPlaying := false, replaySpeed := 1.2, replayFrameAccum := 0,
    winnerConfirmed := false, stateTimer := 0, time := 0, hitstop := 0, slowmo := 1,
    powerupSpawnTimer := 0, zoom := 1, zoomTarget := 1 }

/-- Concrete fixture: settings for two solo (team-less) players. -/
def fxSettings : GSettings := ⟨[⟨0, 0, -1⟩, ⟨1, 1, -1⟩]⟩

/-- Concrete fixture: zeroed statistics. -/
def fxStats : Stats := ⟨⟨0, 0, 0, 0, 0⟩, ⟨0, 0, 0, 0, 0⟩, 0⟩

/-! ### C9 — replay playback start offset and fractional advance -/

/-- **C9.**  For a replay buffer of length `L`, starting playback sets the
playback index to `max(0, L - min(180, floor(0.6 * L)))`, never the oldest
frame when `L > 0`, and resets the fractional accumulator; each advance step
adds the playback speed to the accumulator, moves to the next frame only when
the accumulator reaches 1 (consuming one unit), and wraps the index back to 0
when it reaches the buffer length. -/
theorem replay_start_offset_and_advance (g : GState) :
    (1 ≤ g.replayBuffer.length → 1 ≤ g.startReplay.replayPlaybackIndex) ∧
    g.startReplay.replayPlaybackIndex
      = max 0 ((g.replayBuffer.length : ℤ)
          - min 180 (Int.floor ((g.replayBuffer.length : ℚ) * 0.6))) ∧
    g.startReplay.replayFrameAccum = 0 ∧
    g.startReplay.replayPlaying = true ∧
    (g.replayPlaying = true →
      (g.replayFrameAccum + g.replaySpeed < 1 →
        g.advanceReplay.1.replayPlaybackIndex = g.replayPlaybackIndex ∧
        g.advanceReplay.1.replayFrameAccum = g.replayFrameAccum + g.replaySpeed) ∧
      (1 ≤ g.replayFrameAccum + g.replaySpeed →
        g.advanceReplay.1.replayFrameAccum = g.replayFrameAccum + g.replaySpeed - 1 ∧
        g.advanceReplay.1.replayPlaybackIndex
          = if g.replayPlaybackIndex + 1 ≥ (g.replayBuffer.length : ℤ) then 0
            else g.replayPlaybackIndex + 1)) := by
  refine ⟨?_, rfl, rfl, rfl, ?_⟩
  · intro hL
    have hL1 : (1 : ℤ) ≤ (g.replayBuffer.length : ℤ) := by exact_mod_cast hL
    set L : ℤ := (g.replayBuffer.length : ℤ) with hLdef
    have hfl : (Int.floor ((g.replayBuffer.length : ℚ) * 0.6) : ℚ)
        ≤ (g.replayBuffer.length : ℚ) * 0.6 := Int.floor_le _
    have hlt : ((g.replayBuffer.length : ℤ) : ℚ) * 0.6 < ((g.replayBuffer.length : ℤ) : ℚ) := by
      have hpos : (0 : ℚ) < ((g.replayBuffer.length : ℤ) : ℚ) := by
        have h0 : 0 < g.replayBuffer.length := hL
        exact_mod_cast h0
      nlinarith
    have hfl_lt : Int.floor ((g.replayBuffer.length : ℚ) * 0.6) < L := by
      have : (Int.floor ((g.replayBuffer.length : ℚ) * 0.6) : ℚ) < ((L : ℤ) : ℚ) := by
        have : ((g.replayBuffer.length : ℕ) : ℚ) = ((L : ℤ) : ℚ) := by
          simp [hLdef]
        calc (Int.floor ((g.replayBuffer.length : ℚ) * 0.6) : ℚ)
            ≤ (g.replayBuffer.length : ℚ) * 0.6 := hfl
          _ < ((L : ℤ) : ℚ) := by
              rw [← this]
              exact_mod_cast hlt
      exact_mod_cast this
    have hmin : min 180 (Int.floor ((g.replayBuffer.length : ℚ) * 0.6)) ≤ L - 1 := by
      have := min_le_right (180 : ℤ) (Int.floor ((g.replayBuffer.length : ℚ) * 0.6))
      omega
    have h1 : 1 ≤ L - min 180 (Int.floor ((g.replayBuffer.length : ℚ) * 0.6)) := by omega
    show 1 ≤ max 0 (L - min 180 (Int.floor ((g.replayBuffer.length : ℚ) * 0.6)))
    omega
  · intro hplay
    constructor
    · intro hlt
      have hnot : ¬(g.replayFrameAccum + g.replaySpeed ≥ 1) := not_le.mpr hlt
      simp [GState.advanceReplay, hplay, hnot]
    · intro hge
      have hge' : g.replayFrameAccum + g.replaySpeed ≥ 1 := hge
      simp [GState.advanceReplay, hplay, hge']

/-- Concrete fixture: one-frame buffer, playback active at index 0 with speed 1.2. -/
def fxG9 : GState := { fxG with replayBuffer := [fxFrame], replayPlaying := true }

/-- Witness for C9 at a concrete one-frame buffer. -/
theorem replay_start_offset_and_advance_witness :
    1 ≤ fxG9.startReplay.replayPlaybackIndex ∧
    fxG9.advanceReplay.1.replayFrameAccum = fxG9.replayFrameAccum + fxG9.replaySpeed - 1 := by
  have h := replay_start_offset_and_advance fxG9
  exact ⟨h.1 (by decide), ((h.2.2.2.2 rfl).2 (by norm_num [fxG9, fxG])).1⟩

/-! ### C6 — bounce cap forces the Returning transition on the next contact -/

/-- **C6.**  A wall contact reflects the velocity about the surface normal
and increments the bounce counter, a boundary contact (`bounceData`)
increments the counter as well, and for a projectile whose accumulated
bounce count equals its cap, either kind of contact leaves it in the
Returning state — with no condition on the current velocity. -/
theorem bounce_cap_forces_return (ci : CollisionInfo) (t v : Vec2) (b : BoomerangData)
    (hcap : b.bounces = b.maxBounces) :
    (applyWallCollision ci t v b).2.2.bounces = b.bounces + 1 ∧
    (applyWallCollision ci t v b).2.1
      = ⟨v.x - 2 * (v.x * ci.nx + v.y * ci.ny) * ci.nx,
         v.y - 2 * (v.x * ci.nx + v.y * ci.ny) * ci.ny⟩ ∧
    (applyWallCollision ci t v b).2.2.returning = true ∧
    (bounceData b).bounces = b.bounces + 1 ∧
    (bounceData b).returning = true := by
  have hge : b.bounces + 1 ≥ b.maxBounces := by omega
  cases hb : b.returning with
  | false =>
    refine ⟨?_, ?_, ?_, ?_, ?_⟩ <;>
      simp [applyWallCollision, bounceData, hge, hb]
  | true =>
    refine ⟨?_, ?_, ?_, ?_, ?_⟩ <;>
      simp [applyWallCollision, bounceData, hge, hb]

/-- Concrete fixture: a projectile at its bounce cap. -/
def fxCapData : BoomerangData := { (fxBoom 0).boomerang with bounces := 5, maxBounces := 5 }

/-- Witness for C6 at a concrete capped projectile and a unit normal. -/
theorem bounce_cap_forces_return_witness :
    (applyWallCollision ⟨1, 0, 2⟩ ⟨0, 0⟩ ⟨-3, 4⟩ fxCapData).2.2.returning = true ∧
    (bounceData fxCapData).bounces = 6 := by
  have h := bounce_cap_forces_return ⟨1, 0, 2⟩ ⟨0, 0⟩ ⟨-3, 4⟩ fxCapData (by decide)
  exact ⟨h.2.2.1, h.2.2.2.1⟩

/-! ### C8 — projectile expiry despawns and opportunistically repairs possession -/

/-- **C8.**  When a boomerang's lifetime exceeds the absolute cap, cleanup
despawns the entity; the owner's possession flag is set to `true` exactly
when the owner is found, alive, and currently without a boomerang, and in
every other case (dead owner, owner already holding, or absent owner) the
player list is left untouched. -/
theorem expiry_restores_possession (b : BoomEnt) (ps : List PlayerEnt)
    (hexp : b.boomerang.lifetime > BOOMERANG_CONFIG.maxLifetime) :
    (cleanupBoomerangs [b] ps).1 = [] ∧
    (∀ o, ps.find? (fun pl => pl.player.playerId = b.boomerang.ownerId) = some o →
      (o.player.alive = true → o.player.hasBoomerang = false →
        ∃ o', (cleanupBoomerangs [b] ps).2.find?
            (fun pl => pl.player.playerId = b.boomerang.ownerId) = some o' ∧
          o'.player.hasBoomerang = true) ∧
      ((o.player.alive = false ∨ o.player.hasBoomerang = true) →
        (cleanupBoomerangs [b] ps).2 = ps)) ∧
    (ps.find? (fun pl => pl.player.playerId = b.boomerang.ownerId) = none →
      (cleanupBoomerangs [b] ps).2 = ps) := by
  refine ⟨?_, ?_, ?_⟩
  · simp [cleanupBoomerangs, hexp]
  · intro o hfind
    constructor
    · intro halive hnob
      have hfu := find?_updateFirst_self
        (fun pl => pl.player.playerId = b.boomerang.ownerId)
        (fun pl => { pl with player := { pl.player with hasBoomerang := true } })
        (by intro x hx; simpa using hx) ps o hfind
      refine ⟨{ o with player := { o.player with hasBoomerang := true } }, ?_, rfl⟩
      simp [cleanupBoomerangs, hexp, hfind, halive, hnob, hfu]
    · intro hcase
      simp only [cleanupBoomerangs, if_pos hexp, hfind]
      rcases hcase with h | h
      · simp [h]
      · simp [h]
  · intro hnone
    simp [cleanupBoomerangs, hexp, hnone]

/-- Concrete fixture: an expired boomerang owned by player 0. -/
def fxOldBoom : BoomEnt :=
  { fxBoom 0 with boomerang := { (fxBoom 0).boomerang with lifetime := 301 } }

/-- Concrete fixture: player 0 alive without possession. -/
def fxNoBoomPlayer : PlayerEnt :=
  { fxPlayer 0 with player := { fxPlayerData 0 with hasBoomerang := false } }

/-- Witness for C8: the expired projectile is despawned and the flag of its
alive, empty-handed owner is restored. -/
theorem expiry_restores_possession_witness :
    (cleanupBoomerangs [fxOldBoom] [fxNoBoomPlayer]).1 = [] ∧
    ∃ o', (cleanupBoomerangs [fxOldBoom] [fxNoBoomPlayer]).2.find?
        (fun pl => pl.player.playerId = fxOldBoom.boomerang.ownerId) = some o' ∧
      o'.player.hasBoomerang = true := by
  have h := expiry_restores_possession fxOldBoom [fxNoBoomPlayer] (by decide)
  exact ⟨h.1, (h.2.1 fxNoBoomPlayer (by decide)).1 rfl rfl⟩

/-! ### C4 — catch versus hit classification on projectile/player overlap -/

theorem applyOverlap_boomerang_none_iff (b : BoomEnt) (e : PlayerEnt) :
    (applyOverlap b e).boomerang = none ↔
      overlapAction b.boomerang e.player = some OverlapAction.caught := by
  rcases ha : overlapAction b.boomerang e.player with _ | a
  · simp [applyOverlap, ha]
  · cases a <;> simp [applyOverlap, ha]

theorem overlapAction_caught_iff (b : BoomerangData) (p : PlayerData) :
    overlapAction b p = some OverlapAction.caught ↔
      b.ownerId = p.playerId ∧ b.returning = true ∧ p.catchCooldown ≤ 0 := by
  by_cases hc : b.ownerId = p.playerId ∧ b.returning = true ∧ p.catchCooldown ≤ 0
  · simp only [overlapAction]
    rw [if_pos (by simpa using hc)]
    simpa using hc
  · simp only [overlapAction]
    rw [if_neg (by simpa using hc)]
    split_ifs <;> simp [hc]

/-- **C4.**  On a projectile/player overlap: the projectile entity is removed
(caught) iff it belongs to the player, is returning, and the player's catch
cooldown has elapsed; a catch sets the possession flag; and when the catch
conditions fail, the overlap resolves as a hit (some shield / freeze / kill
action) exactly when the projectile does not belong to the player or its
lifetime exceeds the 20-tick freshness floor. -/
theorem overlap_catch_or_hit (b : BoomEnt) (e : PlayerEnt) :
    ((applyOverlap b e).boomerang = none ↔
      b.boomerang.ownerId = e.player.playerId ∧ b.boomerang.returning = true ∧
        e.player.catchCooldown ≤ 0) ∧
    (b.boomerang.ownerId = e.player.playerId ∧ b.boomerang.returning = true ∧
        e.player.catchCooldown ≤ 0 →
      (applyOverlap b e).player.player.hasBoomerang = true) ∧
    (¬(b.boomerang.ownerId = e.player.playerId ∧ b.boomerang.returning = true ∧
        e.player.catchCooldown ≤ 0) →
      ((overlapAction b.boomerang e.player).isSome = true ↔
        b.boomerang.ownerId ≠ e.player.playerId ∨ b.boomerang.lifetime > 20)) := by
  refine ⟨(applyOverlap_boomerang_none_iff b e).trans (overlapAction_caught_iff _ _), ?_, ?_⟩
  · intro hc
    have ha : overlapAction b.boomerang e.player = some OverlapAction.caught :=
      (overlapAction_caught_iff _ _).mpr hc
    simp [applyOverlap, ha, catchBoomerang]
  · intro hc
    simp only [overlapAction]
    rw [if_neg (by simpa using hc)]
    by_cases hh : b.boomerang.ownerId ≠ e.player.playerId ∨ b.boomerang.lifetime > 20
    · rw [if_pos (by simpa using hh)]
      split_ifs <;> simp [hh]
    · rw [if_neg (by simpa using hh)]
      simp [hh]

/-- Witness for C4: player 0's own returning projectile with an elapsed catch
cooldown is caught (entity removed, possession restored). -/
theorem overlap_catch_or_hit_witness :
    (applyOverlap { fxBoom 0 with boomerang := { (fxBoom 0).boomerang with returning := true } }
        (fxPlayer 0)).boomerang = none ∧
    (applyOverlap { fxBoom 0 with boomerang := { (fxBoom 0).boomerang with returning := true } }
        (fxPlayer 0)).player.player.hasBoomerang = true := by
  have h := overlap_catch_or_hit
    { fxBoom 0 with boomerang := { (fxBoom 0).boomerang with returning := true } } (fxPlayer 0)
  exact ⟨h.1.mpr (by decide), h.2.1 (by decide)⟩

/-! ### C5 — shield charges absorb N lethal hits and break on hit N+1 -/

theorem shieldBlock_player_fields (p : PlayerData) (b : BoomEnt) :
    (shieldBlock p b).1.alive = p.alive ∧
    (shieldBlock p b).1.playerId = p.playerId ∧
    (shieldBlock p b).1.shieldHits = p.shieldHits - 1 ∧
    (0 < p.shieldHits - 1 → (shieldBlock p b).1.powerups = p.powerups) ∧
    (shieldBlock p b).2 = { b with
      velocity := b.velocity.map (fun v => ⟨v.x * (-1.2), v.y * (-1.2)⟩),
      boomerang := { b.boomerang with returning := false, returnTimer := 0 } } := by
  refine ⟨?_, ?_, ?_, ?_, rfl⟩ <;> simp only [shieldBlock]
  · split_ifs <;> rfl
  · split_ifs <;> rfl
  · split_ifs <;> rfl
  · intro h
    rw [if_neg (by omega)]

theorem overlapAction_shielded (b : BoomEnt) (e : PlayerEnt)
    (hhost : b.boomerang.ownerId ≠ e.player.playerId)
    (hsp : hasPowerup e.player "shield" = true)
    (hsh : 0 < e.player.shieldHits) :
    overlapAction b.boomerang e.player = some OverlapAction.shielded := by
  simp only [overlapAction]
  rw [if_neg (by simp [hhost])]
  rw [if_pos (Or.inl hhost)]
  rw [if_pos ⟨hsp, hsh⟩]

theorem applyHits_shield_chain (bs : List BoomEnt) : ∀ e : PlayerEnt,
    (∀ b ∈ bs, b.boomerang.ownerId ≠ e.player.playerId) →
    (bs ≠ [] → hasPowerup e.player "shield" = true) →
    (bs.length : ℤ) ≤ e.player.shieldHits →
    (applyHits bs e).player.alive = e.player.alive ∧
    (applyHits bs e).player.playerId = e.player.playerId ∧
    (applyHits bs e).player.shieldHits = e.player.shieldHits - bs.length := by
  induction bs with
  | nil => intro e _ _ _; refine ⟨rfl, rfl, by simp [applyHits]⟩
  | cons b bs ih =>
    intro e hbs hsp hlen
    have hhost : b.boomerang.ownerId ≠ e.player.playerId := hbs b (List.mem_cons_self _ _)
    have hsh : 0 < e.player.shieldHits := by
      have := hlen
      simp only [List.length_cons] at this
      push_cast at this
      omega
    have ha := overlapAction_shielded b e hhost (hsp (by simp)) hsh
    have hsb := shieldBlock_player_fields e.player b
    have happ : (applyOverlap b e).player = { e with player := (shieldBlock e.player b).1 } := by
      simp [applyOverlap, ha]
    have hstep : applyHits (b :: bs) e = applyHits bs ((applyOverlap b e).player) := by
      simp [applyHits]
    have h1 : (applyOverlap b e).player.player.alive = e.player.alive := by
      rw [happ]; exact hsb.1
    have h2 : (applyOverlap b e).player.player.playerId = e.player.playerId := by
      rw [happ]; exact hsb.2.1
    have h3 : (applyOverlap b e).player.player.shieldHits = e.player.shieldHits - 1 := by
      rw [happ]; exact hsb.2.2.1
    have h4 : bs ≠ [] → hasPowerup (applyOverlap b e).player.player "shield" = true := by
      intro hne
      have hpow : (applyOverlap b e).player.player.powerups = e.player.powerups := by
        rw [happ]
        apply hsb.2.2.2.1
        have hlen1 : 1 ≤ bs.length := by
          cases bs with
          | nil => exact absurd rfl hne
          | cons _ _ => simp
        have := hlen
        simp only [List.length_cons] at this
        push_cast at this
        omega
      rw [hasPowerup, hpow, ← hasPowerup]
      exact hsp (by simp)
    have h5 : (∀ b' ∈ bs, b'.boomerang.ownerId ≠ (applyOverlap b e).player.player.playerId) := by
      intro b' hb'
      rw [h2]
      exact hbs b' (List.mem_cons_of_mem _ hb')
    have h6 : (bs.length : ℤ) ≤ (applyOverlap b e).player.player.shieldHits := by
      rw [h3]
      have := hlen
      simp only [List.length_cons] at this
      push_cast at this ⊢
      omega
    have hrec := ih ((applyOverlap b e).player) h5 h4 h6
    rw [hstep]
    refine ⟨hrec.1.trans h1, hrec.2.1.trans h2, ?_⟩
    rw [hrec.2.2, h3]
    simp only [List.length_cons]
    push_cast
    ring

theorem overlapAction_killed (b : BoomEnt) (e : PlayerEnt)
    (hhost : b.boomerang.ownerId ≠ e.player.playerId)
    (hnf : b.boomerang.hasFreeze = false)
    (hns : ¬(hasPowerup e.player "shield" = true ∧ 0 < e.player.shieldHits)) :
    overlapAction b.boomerang e.player = some OverlapAction.killed := by
  simp only [overlapAction]
  rw [if_neg (by simp [hhost])]
  rw [if_pos (Or.inl hhost)]
  rw [if_neg (by simpa using hns)]
  rw [if_neg (by simp [hnf])]

/-- **C5.**  A player holding a shield powerup with charge counter `N > 0`
survives `N` consecutive overlaps with lethal (non-freeze, non-owned)
projectiles — each one resolved by the shield: the charge counter drops by 1
and the projectile is returned with its velocity reversed (scaled by 1.2) and
its returning state reset — and is killed by hit `N + 1` once the counter
has reached 0.  (`collectPowerup "shield"` is what sets the counter to 3.) -/
theorem shield_consumption (N : ℕ) (e : PlayerEnt) (bs : List BoomEnt) (bfin : BoomEnt)
    (_hN : 0 < N)
    (halive : e.player.alive = true)
    (hsp : hasPowerup e.player "shield" = true)
    (hsh : e.player.shieldHits = (N : ℤ))
    (hlen : bs.length = N)
    (hbs : ∀ b ∈ bs, b.boomerang.hasFreeze = false ∧
      b.boomerang.ownerId ≠ e.player.playerId)
    (hfin : bfin.boomerang.hasFreeze = false ∧
      bfin.boomerang.ownerId ≠ e.player.playerId) :
    (applyHits bs e).player.alive = true ∧
    (applyHits bs e).player.shieldHits = 0 ∧
    (applyOverlap bfin (applyHits bs e)).player.player.alive = false ∧
    (∀ (b : BoomEnt) (q : PlayerEnt), hasPowerup q.player "shield" = true →
      0 < q.player.shieldHits → b.boomerang.ownerId ≠ q.player.playerId →
      (applyOverlap b q).player.player.alive = q.player.alive ∧
      (applyOverlap b q).player.player.shieldHits = q.player.shieldHits - 1 ∧
      (applyOverlap b q).boomerang = some { b with
        velocity := b.velocity.map (fun v => ⟨v.x * (-1.2), v.y * (-1.2)⟩),
        boomerang := { b.boomerang with returning := false, returnTimer := 0 } }) ∧
    ((collectPowerup "shield" (fxPlayerData 0)).shieldHits = 3 ∧
      hasPowerup (collectPowerup "shield" (fxPlayerData 0)) "shield" = true) := by
  have hchain := applyHits_shield_chain bs e
    (fun b hb => (hbs b hb).2)
    (fun _ => hsp)
    (by rw [hlen, hsh])
  have hsh0 : (applyHits bs e).player.shieldHits = 0 := by
    rw [hchain.2.2, hsh, hlen]
    ring
  have hpid : (applyHits bs e).player.playerId = e.player.playerId := hchain.2.1
  refine ⟨hchain.1.trans halive, hsh0, ?_, ?_, by simp [collectPowerup, hasPowerup]⟩
  · have hk := overlapAction_killed bfin (applyHits bs e)
      (by rw [hpid]; exact hfin.2) hfin.1
      (by rw [hsh0]; exact fun h => lt_irrefl 0 h.2)
    simp [applyOverlap, hk]
  · intro b q hq1 hq2 hq3
    have ha := overlapAction_shielded b q hq3 hq1 hq2
    have hsb := shieldBlock_player_fields q.player b
    refine ⟨?_, ?_, ?_⟩
    · simp only [applyOverlap, ha]
      exact hsb.1
    · simp only [applyOverlap, ha]
      exact hsb.2.2.1
    · simp only [applyOverlap, ha]
      exact congrArg some hsb.2.2.2.2

/-- Concrete fixture: player 0 with a fresh shield (3 charges). -/
def fxShieldPlayer : PlayerEnt :=
  { fxPlayer 0 with player :=
    { fxPlayerData 0 with powerups := [⟨"shield", 600⟩], shieldHits := 3 } }

/-- Witness for C5 with N = 3: three lethal hits from player 1's projectile
are absorbed, the fourth kills. -/
theorem shield_consumption_witness :
    (applyHits [fxBoom 1, fxBoom 1, fxBoom 1] fxShieldPlayer).player.alive = true ∧
    (applyHits [fxBoom 1, fxBoom 1, fxBoom 1] fxShieldPlayer).player.shieldHits = 0 ∧
    (applyOverlap (fxBoom 1)
      (applyHits [fxBoom 1, fxBoom 1, fxBoom 1] fxShieldPlayer)).player.player.alive = false := by
  have h := shield_consumption 3 fxShieldPlayer [fxBoom 1, fxBoom 1, fxBoom 1] (fxBoom 1)
    (by decide) rfl (by simp [fxShieldPlayer, fxPlayerData, hasPowerup]) rfl rfl
    (by intro b hb; fin_cases hb <;> exact ⟨rfl, by decide⟩)
    ⟨rfl, by decide⟩
  exact ⟨h.1, h.2.1, h.2.2.1⟩

/-! ### C3 — dead players are inert -/

/-- **C3.**  A dead player is untouched by the Movement system (position and
velocity unchanged), every Player↔Player pair containing a dead player is
skipped by the collision resolution, and a dead player is excluded from the
alive-player list used by the round-end evaluation. -/
theorem dead_player_inert (m : MathOps) (env : PlayerEnv) (inp : PInput)
    (e p1 p2 : PlayerEnt) (world : List PlayerEnt)
    (hd : e.player.alive = false)
    (hpair : p1.player.alive = false ∨ p2.player.alive = false) :
    (updatePlayer m env inp e).transform = e.transform ∧
    (updatePlayer m env inp e).velocity = e.velocity ∧
    pairResolve m p1 p2 = (p1, p2) ∧
    e ∉ aliveEntities world := by
  have hupd : updatePlayer m env inp e = e := by
    unfold updatePlayer
    rcases ht : e.transform with _ | t0 <;> rcases hv : e.velocity with _ | v0 <;>
      simp [hd]
  have hpr : pairResolve m p1 p2 = (p1, p2) := by
    unfold pairResolve
    rcases hpair with h | h <;> simp [h]
  refine ⟨by rw [hupd], by rw [hupd], hpr, ?_⟩
  simp [aliveEntities, List.mem_filter, hd]

/-- Concrete fixture: a dead player entity. -/
def fxDead : PlayerEnt := { fxPlayer 0 with player := { fxPlayerData 0 with alive := false } }

/-- Concrete fixture: trivial math operations (irrelevant for the claims). -/
def fxMath : MathOps := ⟨fun _ => 0, fun _ _ => 0, fun _ => 1, fun _ => 0, 0⟩

/-- Concrete fixture: a neutral per-tick environment. -/
def fxEnv : PlayerEnv := ⟨false, 1, 1920, 1080⟩

/-- Concrete fixture: a neutral input sample. -/
def fxInput : PInput := ⟨0, 0, false, false, false⟩

/-- Witness for C3 on a concrete dead player. -/
theorem dead_player_inert_witness :
    (updatePlayer fxMath fxEnv fxInput fxDead).transform = fxDead.transform ∧
    pairResolve fxMath fxDead (fxPlayer 1) = (fxDead, fxPlayer 1) ∧
    fxDead ∉ aliveEntities [fxDead, fxPlayer 1] := by
  have h := dead_player_inert fxMath fxEnv fxInput fxDead fxDead (fxPlayer 1)
    [fxDead, fxPlayer 1] rfl (Or.inl rfl)
  exact ⟨h.1, h.2.2.1, h.2.2.2⟩

/-! ### C10 — positions are clamped into the arena rectangle -/

theorem bounceForce_mul_nonneg (q : ℚ) : 0 ≤ |q| * bounceForce q := by
  apply mul_nonneg (abs_nonneg _)
  apply le_min
  · have := abs_nonneg q
    rw [PLAYER_CONFIG.maxSpeed]
    nlinarith
  · norm_num

theorem pbXLow_x (s : Vec2 × Vec2) : 60 ≤ (pbXLow s).1.x := by
  unfold pbXLow; split_ifs with h
  · norm_num
  · simpa using le_of_not_lt h

theorem pbXHigh_x (W : ℚ) (hW : 120 ≤ W) (s : Vec2 × Vec2) (h : 60 ≤ s.1.x) :
    60 ≤ (pbXHigh W s).1.x ∧ (pbXHigh W s).1.x ≤ W - 60 := by
  unfold pbXHigh; split_ifs with hc
  · refine ⟨?_, ?_⟩ <;> simp only [] <;> linarith
  · exact ⟨h, by simpa using le_of_not_lt hc⟩

theorem pbYLow_y (s : Vec2 × Vec2) : 60 ≤ (pbYLow s).1.y := by
  unfold pbYLow; split_ifs with h
  · norm_num
  · simpa using le_of_not_lt h

theorem pbYHigh_y (H : ℚ) (hH : 120 ≤ H) (s : Vec2 × Vec2) (h : 60 ≤ s.1.y) :
    60 ≤ (pbYHigh H s).1.y ∧ (pbYHigh H s).1.y ≤ H - 60 := by
  unfold pbYHigh; split_ifs with hc
  · refine ⟨?_, ?_⟩ <;> simp only [] <;> linarith
  · exact ⟨h, by simpa using le_of_not_lt hc⟩

theorem pbXLow_yparts (s : Vec2 × Vec2) :
    (pbXLow s).1.y = s.1.y ∧ (pbXLow s).2.y = s.2.y := by
  unfold pbXLow; split_ifs <;> exact ⟨rfl, rfl⟩

theorem pbXHigh_yparts (W : ℚ) (s : Vec2 × Vec2) :
    (pbXHigh W s).1.y = s.1.y ∧ (pbXHigh W s).2.y = s.2.y := by
  unfold pbXHigh; split_ifs <;> exact ⟨rfl, rfl⟩

theorem pbYLow_xparts (s : Vec2 × Vec2) :
    (pbYLow s).1.x = s.1.x ∧ (pbYLow s).2.x = s.2.x := by
  unfold pbYLow; split_ifs <;> exact ⟨rfl, rfl⟩

theorem pbYHigh_xparts (H : ℚ) (s : Vec2 × Vec2) :
    (pbYHigh H s).1.x = s.1.x ∧ (pbYHigh H s).2.x = s.2.x := by
  unfold pbYHigh; split_ifs <;> exact ⟨rfl, rfl⟩

theorem resolvePlayerBoundary_bounds (W H : ℚ) (hW : 120 ≤ W) (hH : 120 ≤ H) (t v : Vec2) :
    60 ≤ (resolvePlayerBoundary W H t v).1.x ∧ (resolvePlayerBoundary W H t v).1.x ≤ W - 60 ∧
    60 ≤ (resolvePlayerBoundary W H t v).1.y ∧ (resolvePlayerBoundary W H t v).1.y ≤ H - 60 := by
  unfold resolvePlayerBoundary
  have hx1 : 60 ≤ (pbXHigh W (pbXLow (t, v))).1.x ∧ (pbXHigh W (pbXLow (t, v))).1.x ≤ W - 60 :=
    pbXHigh_x W hW _ (pbXLow_x _)
  have hx2 := pbYLow_xparts (pbXHigh W (pbXLow (t, v)))
  have hx3 := pbYHigh_xparts H (pbYLow (pbXHigh W (pbXLow (t, v))))
  have hy1 : 60 ≤ (pbYHigh H (pbYLow (pbXHigh W (pbXLow (t, v))))).1.y ∧
      (pbYHigh H (pbYLow (pbXHigh W (pbXLow (t, v))))).1.y ≤ H - 60 :=
    pbYHigh_y H hH _ (pbYLow_y _)
  refine ⟨?_, ?_, hy1.1, hy1.2⟩
  · rw [hx3.1, hx2.1]; exact hx1.1
  · rw [hx3.1, hx2.1]; exact hx1.2

theorem resolvePlayerBoundary_inward (W H : ℚ) (hW : 120 ≤ W) (hH : 120 ≤ H) (t v : Vec2) :
    (t.x < 60 → 0 ≤ (resolvePlayerBoundary W H t v).2.x) ∧
    (t.x > W - 60 → (resolvePlayerBoundary W H t v).2.x ≤ 0) ∧
    (t.y < 60 → 0 ≤ (resolvePlayerBoundary W H t v).2.y) ∧
    (t.y > H - 60 → (resolvePlayerBoundary W H t v).2.y ≤ 0) := by
  unfold resolvePlayerBoundary
  refine ⟨?_, ?_, ?_, ?_⟩
  · intro h
    have e1 : pbXLow (t, v) = (⟨60, t.y⟩, ⟨|v.x| * bounceForce v.x, v.y⟩) := by
      unfold pbXLow; rw [if_pos h]
    have e2 : pbXHigh W (pbXLow (t, v)) = pbXLow (t, v) := by
      rw [e1]; unfold pbXHigh
      rw [if_neg (by simp only []; linarith)]
    rw [(pbYHigh_xparts H _).2, (pbYLow_xparts _).2, e2, e1]
    exact bounceForce_mul_nonneg v.x
  · intro h
    have e1 : pbXLow (t, v) = (t, v) := by
      unfold pbXLow; rw [if_neg (by simp only []; linarith)]
    have e2 : pbXHigh W (pbXLow (t, v))
        = (⟨W - 60, t.y⟩, ⟨-(|v.x| * bounceForce v.x), v.y⟩) := by
      rw [e1]; unfold pbXHigh; rw [if_pos (by simpa using h)]
    rw [(pbYHigh_xparts H _).2, (pbYLow_xparts _).2, e2]
    have := bounceForce_mul_nonneg v.x
    simp only []
    linarith
  · intro h
    have hy : (pbXHigh W (pbXLow (t, v))).1.y = t.y ∧
        (pbXHigh W (pbXLow (t, v))).2.y = v.y := by
      have a := pbXLow_yparts (t, v)
      have c := pbXHigh_yparts W (pbXLow (t, v))
      exact ⟨c.1.trans a.1, c.2.trans a.2⟩
    have e3 : pbYLow (pbXHigh W (pbXLow (t, v)))
        = (⟨(pbXHigh W (pbXLow (t, v))).1.x, 60⟩,
           ⟨(pbXHigh W (pbXLow (t, v))).2.x,
            |(pbXHigh W (pbXLow (t, v))).2.y| * bounceForce ((pbXHigh W (pbXLow (t, v))).2.y)⟩) := by
      unfold pbYLow; rw [if_pos (by rw [hy.1]; exact h)]
    have e4 : pbYHigh H (pbYLow (pbXHigh W (pbXLow (t, v))))
        = pbYLow (pbXHigh W (pbXLow (t, v))) := by
      unfold pbYHigh
      rw [if_neg (by rw [e3]; simp only []; linarith)]
    rw [e4, e3]
    simp only [hy.2]
    exact bounceForce_mul_nonneg v.y
  · intro h
    have hy : (pbXHigh W (pbXLow (t, v))).1.y = t.y ∧
        (pbXHigh W (pbXLow (t, v))).2.y = v.y := by
      have a := pbXLow_yparts (t, v)
      have c := pbXHigh_yparts W (pbXLow (t, v))
      exact ⟨c.1.trans a.1, c.2.trans a.2⟩
    have e3 : pbYLow (pbXHigh W (pbXLow (t, v))) = pbXHigh W (pbXLow (t, v)) := by
      unfold pbYLow; rw [if_neg (by rw [hy.1]; linarith)]
    have e4 : pbYHigh H (pbYLow (pbXHigh W (pbXLow (t, v))))
        = (⟨(pbYLow (pbXHigh W (pbXLow (t, v)))).1.x, H - 60⟩,
           ⟨(pbYLow (pbXHigh W (pbXLow (t, v)))).2.x,
            -(|(pbYLow (pbXHigh W (pbXLow (t, v)))).2.y|
              * bounceForce ((pbYLow (pbXHigh W (pbXLow (t, v)))).2.y))⟩) := by
      unfold pbYHigh
      rw [if_pos (by rw [e3, hy.1]; exact h)]
    rw [e4]
    simp only [e3, hy.2]
    have := bounceForce_mul_nonneg v.y
    linarith

theorem bbXLow_x (s : Vec2 × Vec2 × BoomerangData) : 60 ≤ (bbXLow s).1.x := by
  unfold bbXLow; split_ifs with h
  · norm_num
  · simpa using le_of_not_lt h

theorem bbXHigh_x (W : ℚ) (hW : 120 ≤ W) (s : Vec2 × Vec2 × BoomerangData)
    (h : 60 ≤ s.1.x) : 60 ≤ (bbXHigh W s).1.x ∧ (bbXHigh W s).1.x ≤ W - 60 := by
  unfold bbXHigh; split_ifs with hc
  · refine ⟨?_, ?_⟩ <;> simp only [] <;> linarith
  · exact ⟨h, by simpa using le_of_not_lt hc⟩

theorem bbYLow_y (s : Vec2 × Vec2 × BoomerangData) : 60 ≤ (bbYLow s).1.y := by
  unfold bbYLow; split_ifs with h
  · norm_num
  · simpa using le_of_not_lt h

theorem bbYHigh_y (H : ℚ) (hH : 120 ≤ H) (s : Vec2 × Vec2 × BoomerangData)
    (h : 60 ≤ s.1.y) : 60 ≤ (bbYHigh H s).1.y ∧ (bbYHigh H s).1.y ≤ H - 60 := by
  unfold bbYHigh; split_ifs with hc
  · refine ⟨?_, ?_⟩ <;> simp only [] <;> linarith
  · exact ⟨h, by simpa using le_of_not_lt hc⟩

theorem bbYLow_xpos (s : Vec2 × Vec2 × BoomerangData) : (bbYLow s).1.x = s.1.x := by
  unfold bbYLow; split_ifs <;> rfl

theorem bbYHigh_xpos (H : ℚ) (s : Vec2 × Vec2 × BoomerangData) :
    (bbYHigh H s).1.x = s.1.x := by
  unfold bbYHigh; split_ifs <;> rfl

theorem resolveBoomerangBoundary_bounds (W H : ℚ) (hW : 120 ≤ W) (hH : 120 ≤ H)
    (t v : Vec2) (b : BoomerangData) :
    60 ≤ (resolveBoomerangBoundary W H t v b).1.x ∧
    (resolveBoomerangBoundary W H t v b).1.x ≤ W - 60 ∧
    60 ≤ (resolveBoomerangBoundary W H t v b).1.y ∧
    (resolveBoomerangBoundary W H t v b).1.y ≤ H - 60 := by
  unfold resolveBoomerangBoundary
  have hx1 : 60 ≤ (bbXHigh W (bbXLow (t, v, b))).1.x ∧
      (bbXHigh W (bbXLow (t, v, b))).1.x ≤ W - 60 :=
    bbXHigh_x W hW _ (bbXLow_x _)
  have hy1 : 60 ≤ (bbYHigh H (bbYLow (bbXHigh W (bbXLow (t, v, b))))).1.y ∧
      (bbYHigh H (bbYLow (bbXHigh W (bbXLow (t, v, b))))).1.y ≤ H - 60 :=
    bbYHigh_y H hH _ (bbYLow_y _)
  refine ⟨?_, ?_, hy1.1, hy1.2⟩
  · rw [bbYHigh_xpos, bbYLow_xpos]; exact hx1.1
  · rw [bbYHigh_xpos, bbYLow_xpos]; exact hx1.2

theorem updatePlayer_transform_boundary (m : MathOps) (env : PlayerEnv) (inp : PInput)
    (e : PlayerEnt) (t0 v0 : Vec2)
    (ht : e.transform = some t0) (hv : e.velocity = some v0)
    (ha : e.player.alive = true)
    (hf : ¬(e.player.frozen = true ∧ 1 < e.player.frozenTimer)) :
    ∃ t v, (updatePlayer m env inp e).transform
      = some (resolvePlayerBoundary env.width env.height t v).1 := by
  obtain ⟨p, tr, ve, co⟩ := e
  simp only at ht hv ha hf
  subst ht
  subst hv
  unfold updatePlayer
  dsimp only
  rw [if_neg (by simp [ha])]
  rw [if_neg (show ¬(p.frozen = true ∧ p.frozenTimer - 1 > 0) from
    fun hc => hf ⟨hc.1, by omega⟩)]
  exact ⟨_, _, rfl⟩

theorem updateBoomerang_transform_boundary (m : MathOps) (slowmo W H : ℚ)
    (players : List PlayerEnt) (e : BoomEnt) (t0 v0 : Vec2)
    (ht : e.transform = some t0) (hv : e.velocity = some v0) :
    ∃ t v b, (updateBoomerang m slowmo W H players e).transform
      = some (resolveBoomerangBoundary W H t v b).1 := by
  unfold updateBoomerang
  simp only [ht, hv]
  exact ⟨_, _, _, rfl⟩

/-- **C10.**  After the per-tick position update of a living (and not
still-frozen) player, and of any boomerang, the entity's position lies inside
the arena rectangle `[60, W-60] × [60, H-60]` (for an arena at least 120
units wide and tall): every coordinate that crossed a boundary is clamped to
the 60-unit margin and the corresponding velocity component is redirected
inward. -/
theorem positions_clamped_to_arena (m : MathOps) (env : PlayerEnv) (inp : PInput)
    (e : PlayerEnt) (t0 v0 : Vec2) (slowmo W H : ℚ) (players : List PlayerEnt)
    (eb : BoomEnt) (tb vb : Vec2) (t v : Vec2) (b : BoomerangData)
    (hWe : 120 ≤ env.width) (hHe : 120 ≤ env.height) (hW : 120 ≤ W) (hH : 120 ≤ H)
    (ht : e.transform = some t0) (hv : e.velocity = some v0)
    (ha : e.player.alive = true)
    (hf : ¬(e.player.frozen = true ∧ 1 < e.player.frozenTimer))
    (htb : eb.transform = some tb) (hvb : eb.velocity = some vb) :
    (60 ≤ (resolvePlayerBoundary W H t v).1.x ∧ (resolvePlayerBoundary W H t v).1.x ≤ W - 60 ∧
     60 ≤ (resolvePlayerBoundary W H t v).1.y ∧ (resolvePlayerBoundary W H t v).1.y ≤ H - 60) ∧
    ((t.x < 60 → 0 ≤ (resolvePlayerBoundary W H t v).2.x) ∧
     (t.x > W - 60 → (resolvePlayerBoundary W H t v).2.x ≤ 0) ∧
     (t.y < 60 → 0 ≤ (resolvePlayerBoundary W H t v).2.y) ∧
     (t.y > H - 60 → (resolvePlayerBoundary W H t v).2.y ≤ 0)) ∧
    (60 ≤ (resolveBoomerangBoundary W H t v b).1.x ∧
     (resolveBoomerangBoundary W H t v b).1.x ≤ W - 60 ∧
     60 ≤ (resolveBoomerangBoundary W H t v b).1.y ∧
     (resolveBoomerangBoundary W H t v b).1.y ≤ H - 60) ∧
    (∃ t', (updatePlayer m env inp e).transform = some t' ∧
      60 ≤ t'.x ∧ t'.x ≤ env.width - 60 ∧ 60 ≤ t'.y ∧ t'.y ≤ env.height - 60) ∧
    (∃ t', (updateBoomerang m slowmo W H players eb).transform = some t' ∧
      60 ≤ t'.x ∧ t'.x ≤ W - 60 ∧ 60 ≤ t'.y ∧ t'.y ≤ H - 60) := by
  refine ⟨resolvePlayerBoundary_bounds W H hW hH t v,
    resolvePlayerBoundary_inward W H hW hH t v,
    resolveBoomerangBoundary_bounds W H hW hH t v b, ?_, ?_⟩
  · obtain ⟨tp, vp, htp⟩ := updatePlayer_transform_boundary m env inp e t0 v0 ht hv ha hf
    have hb := resolvePlayerBoundary_bounds env.width env.height hWe hHe tp vp
    exact ⟨_, htp, hb.1, hb.2.1, hb.2.2.1, hb.2.2.2⟩
  · obtain ⟨tq, vq, bq, htq⟩ :=
      updateBoomerang_transform_boundary m slowmo W H players eb tb vb htb hvb
    have hb := resolveBoomerangBoundary_bounds W H hW hH tq vq bq
    exact ⟨_, htq, hb.1, hb.2.1, hb.2.2.1, hb.2.2.2⟩

/-- Witness for C10 at a concrete out-of-bounds position and a concrete
living player / boomerang update in the 1920×1080 arena. -/
theorem positions_clamped_to_arena_witness :
    60 ≤ (resolvePlayerBoundary 1920 1080 ⟨10, 2000⟩ ⟨-5, 7⟩).1.x ∧
    (∃ t', (updatePlayer fxMath fxEnv fxInput (fxPlayer 0)).transform = some t' ∧
      60 ≤ t'.x ∧ t'.x ≤ 1920 - 60 ∧ 60 ≤ t'.y ∧ t'.y ≤ 1080 - 60) := by
  have h := positions_clamped_to_arena fxMath fxEnv fxInput (fxPlayer 0) ⟨100, 100⟩ ⟨0, 0⟩
    1 1920 1080 [] (fxBoom 0) ⟨100, 100⟩ ⟨5, 0⟩ ⟨10, 2000⟩ ⟨-5, 7⟩ (fxBoom 0).boomerang
    (by norm_num [fxEnv]) (by norm_num [fxEnv]) (by norm_num) (by norm_num)
    rfl rfl rfl (by decide) rfl rfl
  exact ⟨h.1.1, by simpa [fxEnv] using h.2.2.2.1⟩

/-! ### C1 / C2 / C7 — kill pipeline, round end, draw, statistics -/

theorem scoreOf_updateFirst_ne (f : PlayerScore → PlayerScore)
    (hid : ∀ p, (f p).playerId = p.playerId) (q pid : ℤ) (hne : pid ≠ q) :
    ∀ l : List PlayerScore,
      scoreOf (updateFirst (fun p => p.playerId = q) f l) pid = scoreOf l pid := by
  have hqp : ¬(q = pid) := fun h => hne h.symm
  intro l
  induction l with
  | nil => rfl
  | cons x xs ih =>
    by_cases hx : x.playerId = q
    · have hxq : ¬x.playerId = pid := by rw [hx]; exact hqp
      have hfq : ¬(f x).playerId = pid := by rw [hid, hx]; exact hqp
      simp only [updateFirst, scoreOf] at *
      simp [hx, List.find?_cons, hxq, hfq, hqp]
    · simp only [updateFirst, scoreOf] at *
      by_cases hp : x.playerId = pid <;> simp [hx, List.find?_cons, hp, ih, hne]

theorem triggerRoundEnd_state (g : GState) (w : ℤ) (b : Bool) :
    (g.triggerRoundEnd w b).state = GPhase.ko := by
  unfold GState.triggerRoundEnd
  split_ifs <;> rfl

theorem triggerRoundEndDeferred_state (g : GState) :
    g.triggerRoundEndDeferred.state = GPhase.roundEnd := rfl

theorem triggerRoundEnd_roundWinner_pos (g : GState) (w : ℤ) (b : Bool) (hw : 0 ≤ w) :
    (g.triggerRoundEnd w b).roundWinner = w := by
  unfold GState.triggerRoundEnd GState.endRound
  rw [if_pos hw]
  split_ifs <;> rfl

theorem triggerRoundEnd_playerScores_pos (g : GState) (w : ℤ) (b : Bool) (hw : 0 ≤ w) :
    (g.triggerRoundEnd w b).playerScores
      = updateFirst (fun p => p.playerId = w)
          (fun p => { p with score := p.score + 1 }) g.playerScores := by
  unfold GState.triggerRoundEnd GState.endRound
  rw [if_pos hw]
  split_ifs <;> rfl

theorem triggerRoundEnd_neg (g : GState) (w : ℤ) (b : Bool) (hw : w < 0) :
    (g.triggerRoundEnd w b).roundWinner = g.roundWinner ∧
    (g.triggerRoundEnd w b).playerScores = g.playerScores := by
  have hw' : ¬(w ≥ 0) := by omega
  unfold GState.triggerRoundEnd
  rw [if_neg hw']
  split_ifs <;> exact ⟨rfl, rfl⟩

theorem playerDied_playerScores (g : GState) (pid kid : ℤ) (h : kid ≠ pid) :
    (g.playerDied pid kid).playerScores
      = updateFirst (fun p => p.playerId = kid) (fun p => { p with kills := p.kills + 1 })
          (updateFirst (fun p => p.playerId = pid)
            (fun p => { p with isAlive := false, deaths := p.deaths + 1 }) g.playerScores) := by
  unfold GState.playerDied
  simp [h]

/-- **C1.**  In a 2-player round where player A (alive, with a non-negative
id) kills player B and no other deaths occur in the same tick, the kill
pipeline transitions the match phase to `ko` and (via the deferred timeout
chain) to `roundEnd`, sets `roundWinner` to A's id, increments A's score by
exactly 1 over its pre-kill value, and leaves every other player's score
unchanged. -/
theorem round_end_two_player_kill
    (eA eB : PlayerEnt) (settings : GSettings) (g : GState) (st : Stats) (sA : ℤ)
    (_hfight : g.state = GPhase.fight)
    (hAalive : eA.player.alive = true)
    (ha0 : 0 ≤ eA.player.playerId)
    (hab : eA.player.playerId ≠ eB.player.playerId)
    (hscore : scoreOf g.playerScores eA.player.playerId = some sA) :
    (killPlayer [eA, eB] 1 eA.player.playerId settings g st).gstate.state = GPhase.ko ∧
    (killPlayer [eA, eB] 1 eA.player.playerId settings g st).gstate.triggerRoundEndDeferred.state
      = GPhase.roundEnd ∧
    (killPlayer [eA, eB] 1 eA.player.playerId settings g st).gstate.roundWinner
      = eA.player.playerId ∧
    scoreOf (killPlayer [eA, eB] 1 eA.player.playerId settings g st).gstate.playerScores
      eA.player.playerId = some (sA + 1) ∧
    (∀ pid, pid ≠ eA.player.playerId →
      scoreOf (killPlayer [eA, eB] 1 eA.player.playerId settings g st).gstate.playerScores pid
        = scoreOf g.playerScores pid) := by
  have hworld : (killPlayer [eA, eB] 1 eA.player.playerId settings g st).gstate
      = checkRoundEnd [eA, { eB with player := { eB.player with alive := false } }] settings
          { (g.playerDied eB.player.playerId eA.player.playerId) with slowmo := 0.3 } := rfl
  have halive : aliveEntities [eA, { eB with player := { eB.player with alive := false } }]
      = [eA] := by
    simp [aliveEntities, hAalive]
  have hchk : checkRoundEnd [eA, { eB with player := { eB.player with alive := false } }] settings
        { (g.playerDied eB.player.playerId eA.player.playerId) with slowmo := 0.3 }
      = ({ (g.playerDied eB.player.playerId eA.player.playerId) with
            slowmo := 0.3 } : GState).triggerRoundEnd eA.player.playerId eA.transform.isSome := by
    unfold checkRoundEnd
    rw [halive]
    simp
  rw [hworld, hchk]
  set g2 : GState :=
    { (g.playerDied eB.player.playerId eA.player.playerId) with slowmo := 0.3 } with hg2
  have hg2ps : g2.playerScores
      = updateFirst (fun p => p.playerId = eA.player.playerId)
          (fun p => { p with kills := p.kills + 1 })
          (updateFirst (fun p => p.playerId = eB.player.playerId)
            (fun p => { p with isAlive := false, deaths := p.deaths + 1 }) g.playerScores) := by
    rw [hg2]
    exact playerDied_playerScores g eB.player.playerId eA.player.playerId hab
  have hg2score : ∀ pid, scoreOf g2.playerScores pid = scoreOf g.playerScores pid := by
    intro pid
    rw [hg2ps]
    rw [scoreOf_updateFirst_pres (fun p => { p with kills := p.kills + 1 })
      (fun p => rfl) (fun p => rfl) eA.player.playerId _ pid]
    rw [scoreOf_updateFirst_pres (fun p => { p with isAlive := false, deaths := p.deaths + 1 })
      (fun p => rfl) (fun p => rfl) eB.player.playerId _ pid]
  refine ⟨triggerRoundEnd_state _ _ _, triggerRoundEndDeferred_state _, ?_, ?_, ?_⟩
  · exact triggerRoundEnd_roundWinner_pos _ _ _ ha0
  · rw [triggerRoundEnd_playerScores_pos _ _ _ ha0]
    rw [scoreOf_updateFirst_self (fun p => { p with score := p.score + 1 })
      (fun p => rfl) eA.player.playerId _]
    have := hg2score eA.player.playerId
    rw [hscore] at this
    obtain ⟨P, hP, hPs⟩ := Option.map_eq_some'.mp this
    rw [hP]
    simp only [Option.map_some']
    rw [hPs]
  · intro pid hpid
    rw [triggerRoundEnd_playerScores_pos _ _ _ ha0]
    rw [scoreOf_updateFirst_ne (fun p => { p with score := p.score + 1 })
      (fun p => rfl) eA.player.playerId pid hpid]
    exact hg2score pid

/-- Witness for C1: player 0 kills player 1 in the concrete two-player fight. -/
theorem round_end_two_player_kill_witness :
    (killPlayer [fxPlayer 0, fxPlayer 1] 1 (fxPlayer 0).player.playerId
      fxSettings fxG fxStats).gstate.roundWinner = (fxPlayer 0).player.playerId ∧
    scoreOf (killPlayer [fxPlayer 0, fxPlayer 1] 1 (fxPlayer 0).player.playerId
      fxSettings fxG fxStats).gstate.playerScores (fxPlayer 0).player.playerId = some (0 + 1) := by
  have h := round_end_two_player_kill (fxPlayer 0) (fxPlayer 1) fxSettings fxG fxStats 0
    rfl rfl (by decide) (by decide) rfl
  exact ⟨h.2.2.1, h.2.2.2.1⟩

/-- **C2 (amended).**  When the round-end evaluation itself observes zero
living players, the draw flow applies: no score changes, `roundWinner` is
left at its pre-pass value (`-1` at any point of a round in which no winner
has been declared), and the round advances through the same `ko`/`roundEnd`
flow.  (As stated over a whole resolution pass the claim fails: sequential
per-kill evaluation first declares the penultimate survivor the winner —
see the counterexample.) -/
theorem draw_evaluation_amended (world : List PlayerEnt) (settings : GSettings) (g : GState)
    (hzero : aliveEntities world = []) (hrw : g.roundWinner = -1) :
    (checkRoundEnd world settings g).roundWinner = -1 ∧
    (checkRoundEnd world settings g).playerScores = g.playerScores ∧
    (checkRoundEnd world settings g).state = GPhase.ko ∧
    (checkRoundEnd world settings g).triggerRoundEndDeferred.state = GPhase.roundEnd := by
  have hchk : checkRoundEnd world settings g = g.triggerRoundEnd (-1) false := by
    unfold checkRoundEnd
    rw [hzero]
    simp
  rw [hchk]
  have hneg := triggerRoundEnd_neg g (-1) false (by norm_num)
  exact ⟨hneg.1.trans hrw, hneg.2, triggerRoundEnd_state _ _ _, triggerRoundEndDeferred_state _⟩

/-- Witness for the amended C2 at a concrete world with no living player. -/
theorem draw_evaluation_amended_witness :
    (checkRoundEnd [fxDead] fxSettings fxG).roundWinner = -1 ∧
    (checkRoundEnd [fxDead] fxSettings fxG).playerScores = fxG.playerScores ∧
    (checkRoundEnd [fxDead] fxSettings fxG).state = GPhase.ko := by
  have h := draw_evaluation_amended [fxDead] fxSettings fxG rfl rfl
  exact ⟨h.1, h.2.1, h.2.2.1⟩

/-- Both players of the concrete fight die in the same resolution pass:
player 0 is killed first (by player 1), then player 1 (by player 0). -/
def fxKill1 : KillResult := killPlayer [fxPlayer 0, fxPlayer 1] 0 1 fxSettings fxG fxStats

/-- The second, pass-ending kill of the mutual-kill tick. -/
def fxKill2 : KillResult :=
  killPlayer fxKill1.world 1 0 fxSettings fxKill1.gstate fxKill1.stats

/-- Counterexample to C2 as stated: in a pass in which *all* remaining
living players die (the alive count reaches 0 within one tick), the
sequential per-kill evaluation has already declared player 1 — alive for a
moment between the two kills — the round winner and incremented its score,
so at the end of the pass `roundWinner = 1 ≠ -1` and player 1's score has
changed. -/
theorem simultaneous_deaths_not_a_draw :
    aliveEntities fxKill2.world = [] ∧
    fxG.roundWinner = -1 ∧
    fxKill2.gstate.roundWinner = 1 ∧
    scoreOf fxG.playerScores 1 = some 0 ∧
    scoreOf fxKill2.gstate.playerScores 1 = some 1 ∧
    fxKill2.gstate.state = GPhase.ko ∧
    ¬(fxKill2.gstate.roundWinner = -1 ∧
      scoreOf fxKill2.gstate.playerScores 1 = scoreOf fxG.playerScores 1) := by
  refine ⟨rfl, rfl, rfl, rfl, rfl, rfl, ?_⟩
  intro h
  exact absurd h.1 (by decide)

/-- Self-kill of player 1 in the concrete two-player fight (own returning
projectile past the freshness floor): victim index 1, killer id 1. -/
def fxSelfKill : KillResult := killPlayer [fxPlayer 0, fxPlayer 1] 1 1 fxSettings fxG fxStats

/-- **C7 (code evaluated at the failing input).**  For the self-kill of
player 1, the kill pipeline marks the victim not-alive, bumps the victim's
death counters, emits the death notification with killer id `-1`, leaves the
`playerScores` kill counters untouched (the intended rule), and evaluates
round end — but `Stats.recordKill`, called with the self-kill marker `-1`,
buckets that id into `p2` and increments `Stats.current.p2.kills`, i.e. the
self-killer's own aggregate kill counter, contradicting the
"killer kills increment iff not a self-kill" rule. -/
theorem selfkill_stats_credit_bug :
    fxSelfKill.stats.p2.kills = fxStats.p2.kills + 1 ∧
    fxSelfKill.stats.p2.deaths = fxStats.p2.deaths + 1 ∧
    fxSelfKill.gstate.playerScores.map (fun p => p.kills) = [0, 0] ∧
    fxSelfKill.gstate.playerScores.map (fun p => p.deaths) = [0, 1] ∧
    fxSelfKill.world.map (fun e => e.player.alive) = [true, false] ∧
    fxSelfKill.events = [GameEvent.playerDeath 1 (-1) 100 100] ∧
    fxSelfKill.gstate.state = GPhase.ko := by
  exact ⟨rfl, rfl, rfl, rfl, rfl, rfl, rfl⟩
